import Mathlib

/-!
Verification of the Scene Orchestration & Force-Field Layer of the
physics-lab-simulator repository (src/components/PhysicsCanvas.tsx and the
3D state computation in the unnamed App/3D sources), as a shallow embedding
in Lean 4.

Modelling conventions:
* JavaScript numbers are modelled as exact rationals `ℚ`.  All claims under
  consideration are about the exact arithmetic formulas of the code, not
  about floating-point rounding.
* `Matter.Vector.magnitude` (Euclidean length, which uses `Math.sqrt`) is
  modelled by an abstract oracle `mag : Vec → ℚ`; theorems carry the
  pointwise specification `MagSpec mag v` (non-negative and squaring to the
  squared Euclidean norm) for exactly the vectors on which the code calls it.
* `Math.cos`/`Math.sin` composed with the degree→radian conversion
  `θ * (Math.PI / 180)` are modelled by abstract oracles
  `cosDeg sinDeg : ℚ → ℚ`; theorems that need trigonometric facts
  (unit norm, value at 0°) take them as hypotheses.
* JavaScript `x || d` on numbers (which replaces both `undefined` and `0`
  by the default `d`) is modelled by `jsOrNum`; `x ?? d` by `Option.getD`.
* Matter body `id`s are `ℕ` and are the identity of a body; JavaScript
  reference equality between body objects (`body === emitterBody`,
  `c.bodyA === body`) is modelled by id equality, ids being unique in a
  Matter engine.
* Mutable state (`engine.world`, `sceneObjectsRef`, `motionTrailsRef`,
  the selection callback) is modelled by explicit state passing over
  `CanvasState`.
-/

/-- 2D vector with rational coordinates (models `Matter.Vector`). -/
structure Vec where
  x : ℚ
  y : ℚ
deriving DecidableEq, Repr

/-- Vector subtraction (models `Matter.Vector.sub`). -/
def Vec.sub (a b : Vec) : Vec := ⟨a.x - b.x, a.y - b.y⟩

/-- Squared Euclidean norm of a vector (used to specify the magnitude oracle). -/
def Vec.normSq (v : Vec) : ℚ := v.x ^ 2 + v.y ^ 2

/-- Pointwise specification of a magnitude oracle: `m` agrees with the
Euclidean magnitude `Matter.Vector.magnitude` on the vector `v`. -/
def MagSpec (m : Vec → ℚ) (v : Vec) : Prop :=
  0 ≤ m v ∧ (m v) ^ 2 = v.normSq

/-- `Matter.Vector.normalise`, parametrised by the magnitude oracle:
returns the zero vector when the magnitude is zero, `v / |v|` otherwise. -/
def normalise (mag : Vec → ℚ) (v : Vec) : Vec :=
  let m := mag v
  if m = 0 then ⟨0, 0⟩ else ⟨v.x / m, v.y / m⟩

/-- A rigid body of the external engine's world, restricted to the fields the
modelled layer reads or writes.  `mass` is engine-computed from density and
geometry; `circleRadius` records the radius passed to `Matter.Bodies.circle`. -/
structure Body where
  id : ℕ
  label : String
  isStatic : Bool
  position : Vec
  velocity : Vec
  angle : ℚ
  angularVelocity : ℚ
  mass : ℚ
  force : Vec
  circleRadius : Option ℚ
deriving DecidableEq, Repr

/-- `Matter.Body.applyForce(body, body.position, f)`: the application point is
the body's own position, so only the force accumulator changes (zero torque). -/
def Body.applyForce (b : Body) (f : Vec) : Body :=
  { b with force := ⟨b.force.x + f.x, b.force.y + f.y⟩ }

/-- The emitter-relevant part of an object's `customData`
(`emitterType`/`emitterStrength`/`emitterDirection`). -/
structure CustomData where
  emitterType : Option String
  emitterStrength : Option ℚ
  emitterDirection : Option ℚ
deriving DecidableEq, Repr

/-- The JavaScript numeric `x || dflt`: both a missing value and `0` are
replaced by the default (`0` is falsy in JavaScript). -/
def jsOrNum (v : Option ℚ) (dflt : ℚ) : ℚ :=
  match v with
  | some x => if x = 0 then dflt else x
  | none => dflt

/-- One emitter acting on one world body: the body of the inner
`bodies.forEach` loop of `applyForceEmitters` (PhysicsCanvas.tsx 144–169).
`ed` is the emitter's customData, `emitterBody` the emitter's engine body. -/
def applyEmitterToBody (mag : Vec → ℚ) (cosDeg sinDeg : ℚ → ℚ)
    (ed : CustomData) (emitterBody : Body) (b : Body) : Body :=
  if b.id = emitterBody.id ∨ b.isStatic = true ∨ b.label = "Boundary" then b
  else
    let strength := jsOrNum ed.emitterStrength 0.001
    let direction := jsOrNum ed.emitterDirection 0
    let distance := mag (Vec.sub b.position emitterBody.position)
    let b1 :=
      if ed.emitterType = some "fan" ∧ distance < 300 then
        let forceMag := strength * (1 - distance / 300)
        b.applyForce ⟨cosDeg direction * forceMag, sinDeg direction * forceMag⟩
      else b
    if ed.emitterType = some "gravity_well" ∧ distance < 250 ∧ distance > 30 then
      let dir := normalise mag (Vec.sub emitterBody.position b.position)
      let forceMag := strength * b1.mass * 50000 / (distance * distance)
      b1.applyForce ⟨dir.x * forceMag, dir.y * forceMag⟩
    else b1

/-- The full force-field evaluator `applyForceEmitters`
(PhysicsCanvas.tsx 129–171): collect the registry objects carrying an
`emitterType` and, for each, sweep the world body list.  A scene object is
modelled by its `(customData, body)` pair; the emitter's `body` field is the
dereferenced engine body (only its `id` and `position` are read, neither of
which is changed by force application, so a snapshot is faithful). -/
def applyForceEmitters (mag : Vec → ℚ) (cosDeg sinDeg : ℚ → ℚ)
    (sceneObjects : List (CustomData × Body)) (bodies : List Body) : List Body :=
  let forceEmitters := sceneObjects.filter (fun e => e.1.emitterType.isSome)
  forceEmitters.foldl
    (fun bs e => bs.map (applyEmitterToBody mag cosDeg sinDeg e.1 e.2)) bodies

/-- The fan force-magnitude profile as a function of strength and distance:
`strength * (1 - d/300)` inside the 300-unit falloff radius, `0` at or
beyond it (PhysicsCanvas.tsx 151–152). -/
def fanForceMag (s d : ℚ) : ℚ :=
  if d < 300 then s * (1 - d / 300) else 0

/-- The gravity-well force-magnitude profile as a function of strength, body
mass and distance: `strength * mass * 50000 / d²` on the open band
`30 < d < 250`, `0` outside it (PhysicsCanvas.tsx 159–163). -/
def gravityWellForceMag (s m d : ℚ) : ℚ :=
  if d < 250 ∧ d > 30 then s * m * 50000 / (d * d) else 0

/-- The subset of `PhysicsObjectDefinition.options` that the modelled layer
reads into engine state (material pass-through fields `density`,
`frictionStatic`, `isSensor` and the render record are forwarded verbatim to
the engine and read by no claim, so they are not tracked on `Body`). -/
structure ObjOptions where
  friction : Option ℚ
  frictionAir : Option ℚ
  restitution : Option ℚ
  isStatic : Option Bool
  label : Option String
deriving DecidableEq, Repr

/-- A catalog object definition (`PhysicsObjectDefinition` in types). -/
structure PhysicsObjectDefinition where
  id : String
  type : String
  width : Option ℚ
  height : Option ℚ
  radius : Option ℚ
  sides : Option ℕ
  options : ObjOptions
  customData : CustomData
deriving DecidableEq, Repr

/-- `createBody` (PhysicsCanvas.tsx 67–103): builds an engine body from a
definition, or fails (returns `none`) when the shape tag is none of
rectangle/circle/polygon.  Missing (or `0`, per JavaScript `||`) shape
parameters are replaced by defaults: width/height 50, circle radius 25,
polygon sides 3 and radius 30.  The body's mass is computed by the external
engine from density and geometry; no modelled claim reads the mass of a
created body, so it is modelled as the engine-opaque value `1`. -/
def createBody (defn : PhysicsObjectDefinition) (x y : ℚ) (newId : ℕ) : Option Body :=
  let label := match defn.options.label with
    | some s => if s = "" then defn.id else s
    | none => defn.id
  let isStatic := defn.options.isStatic.getD false
  let base : Body :=
    { id := newId, label := label, isStatic := isStatic, position := ⟨x, y⟩,
      velocity := ⟨0, 0⟩, angle := 0, angularVelocity := 0, mass := 1,
      force := ⟨0, 0⟩, circleRadius := none }
  if defn.type = "rectangle" then
    some base
  else if defn.type = "circle" then
    some { base with circleRadius := some (jsOrNum defn.radius 25) }
  else if defn.type = "polygon" then
    some base
  else
    none

/-- Registry record for one scene object (`SceneObject` in types; the `body`
reference is modelled by the engine body id, `createdAt` is wall-clock time
and read by nothing modelled). -/
structure SceneObject where
  bodyId : ℕ
  definitionId : String
  initialPosition : Vec
  initialAngle : ℚ
  customData : CustomData
deriving DecidableEq, Repr

/-- An engine constraint as created by `loadExperiment` (bodyA reference,
optional bodyB reference, stiffness with `?? 0.4` default, damping `0.1`,
optional explicit length). -/
structure Constr where
  bodyAId : ℕ
  bodyBId : Option ℕ
  stiffness : ℚ
  damping : ℚ
  length : Option ℚ
deriving DecidableEq, Repr

/-- The mutable state of the canvas component: the engine world's bodies and
constraints, the registry map (`sceneObjectsRef`), the motion-trail buffers
(`motionTrailsRef`), the current selection, and the engine's body-id counter. -/
structure CanvasState where
  worldBodies : List Body
  worldConstraints : List Constr
  sceneObjects : List SceneObject
  motionTrails : List (ℕ × List Vec)
  selected : Option ℕ
  nextId : ℕ
deriving DecidableEq, Repr

/-- `handleDrop` (PhysicsCanvas.tsx 608–642) after a successful payload
parse: create the body; on failure do nothing, otherwise add it to the
world, register it, and select it. -/
def handleDrop (st : CanvasState) (defn : PhysicsObjectDefinition) (x y : ℚ) : CanvasState :=
  match createBody defn x y st.nextId with
  | none => st
  | some body =>
    { st with
      worldBodies := st.worldBodies ++ [body],
      sceneObjects := st.sceneObjects ++
        [⟨body.id, defn.id, ⟨x, y⟩, body.angle, defn.customData⟩],
      selected := some body.id,
      nextId := st.nextId + 1 }

/-- `deleteSelected` (PhysicsCanvas.tsx 501–515): if a body with the selected
id exists, remove every constraint referencing it, the body itself, its
registry entry and its motion-trail buffer, and clear the selection. -/
def deleteSelected (st : CanvasState) : CanvasState :=
  match st.selected with
  | none => st
  | some selId =>
    match st.worldBodies.find? (fun b => b.id == selId) with
    | none => st
    | some body =>
      { st with
        worldConstraints := st.worldConstraints.filter
          (fun c => !(c.bodyAId == body.id || c.bodyBId == some body.id)),
        worldBodies := st.worldBodies.filter (fun b => b.id != body.id),
        sceneObjects := st.sceneObjects.filter (fun o => o.bodyId != body.id),
        motionTrails := st.motionTrails.filter (fun t => t.1 != body.id),
        selected := none }

/-- The ERASER branch of `handleToolAction` (PhysicsCanvas.tsx 682–691):
`queryResult` is the engine's point-query result at the click; the first
non-boundary hit is removed with its referencing constraints and registry
entry.  NOTE (faithful to the source): unlike `deleteSelected`, this path
does not erase the motion-trail buffer, and it clears the selection only
when the erased body was the selected one. -/
def eraserAction (st : CanvasState) (queryResult : List Body) : CanvasState :=
  match queryResult.find? (fun b => b.label != "Boundary") with
  | none => st
  | some clickedBody =>
    { st with
      worldConstraints := st.worldConstraints.filter
        (fun c => !(c.bodyAId == clickedBody.id || c.bodyBId == some clickedBody.id)),
      worldBodies := st.worldBodies.filter (fun b => b.id != clickedBody.id),
      sceneObjects := st.sceneObjects.filter (fun o => o.bodyId != clickedBody.id),
      selected := if st.selected == some clickedBody.id then none else st.selected }

/-- The PIN branch of `handleToolAction` (PhysicsCanvas.tsx 693–696):
toggle the static flag of the first non-boundary hit. -/
def pinAction (st : CanvasState) (queryResult : List Body) : CanvasState :=
  match queryResult.find? (fun b => b.label != "Boundary") with
  | none => st
  | some clickedBody =>
    { st with worldBodies :=
        st.worldBodies.map (fun b =>
          if b.id == clickedBody.id then { b with isStatic := !b.isStatic } else b) }

/-- `clear` (PhysicsCanvas.tsx 456–472): remove every non-boundary body and
every constraint from the world, empty the registry and all motion-trail
buffers, clear the selection.  `loadExperiment` (534–544) performs this
identical clearing inline before creating anything. -/
def clearScene (st : CanvasState) : CanvasState :=
  { st with
    worldBodies := st.worldBodies.filter (fun b => b.label == "Boundary"),
    worldConstraints := [],
    sceneObjects := [],
    motionTrails := [],
    selected := none }

/-- `reset` (PhysicsCanvas.tsx 446–455): restore every registered body's
recorded initial position/angle, zero its velocities, and clear the trails. -/
def resetScene (st : CanvasState) : CanvasState :=
  { st with
    worldBodies := st.worldBodies.map (fun b =>
      match st.sceneObjects.find? (fun o => o.bodyId == b.id) with
      | some o =>
          { b with
            position := o.initialPosition, angle := o.initialAngle,
            velocity := ⟨0, 0⟩, angularVelocity := 0 }
      | none => b),
    motionTrails := [] }

/-- `resetSelectedPosition` (PhysicsCanvas.tsx 516–526). -/
def resetSelectedPosition (st : CanvasState) : CanvasState :=
  match st.selected with
  | none => st
  | some selId =>
    match st.sceneObjects.find? (fun o => o.bodyId == selId) with
    | none => st
    | some o =>
      { st with worldBodies :=
          st.worldBodies.map (fun b =>
            if b.id == selId then
              { b with
                position := o.initialPosition, angle := o.initialAngle,
                velocity := ⟨0, 0⟩, angularVelocity := 0 }
            else b) }

/-- `toggleSelectedStatic` (PhysicsCanvas.tsx 491–500). -/
def toggleSelectedStatic (st : CanvasState) : CanvasState :=
  match st.selected with
  | none => st
  | some selId =>
    match st.worldBodies.find? (fun b => b.id == selId) with
    | none => st
    | some _ =>
      { st with worldBodies :=
          st.worldBodies.map (fun b =>
            if b.id == selId then { b with isStatic := !b.isStatic } else b) }

/-- `modifySelectedProperty` (PhysicsCanvas.tsx 479–490): update one numeric
property of the selected body.  (`friction`/`frictionAir`/`restitution` are
engine fields not tracked on the modelled `Body`; the only tracked field this
operation can change is `mass`, and an unrecognised property is a no-op —
which is what matters to the modelled claims: the registry and the
constraint set are untouched either way.) -/
def modifySelectedProperty (st : CanvasState) (property : String) (value : ℚ) : CanvasState :=
  match st.selected with
  | none => st
  | some selId =>
    match st.worldBodies.find? (fun b => b.id == selId) with
    | none => st
    | some _ =>
      { st with worldBodies :=
          st.worldBodies.map (fun b =>
            if b.id == selId then
              (if property = "mass" then { b with mass := value } else b)
            else b) }

/-- One object placement of an experiment preset
(`experiment.objects` element, see `loadExperiment` 548). -/
structure ObjConfig where
  definitionId : String
  x : ℚ
  y : ℚ
  angle : Option ℚ
  velocity : Option Vec
  isStatic : Option Bool
deriving DecidableEq, Repr

/-- One constraint description of an experiment preset
(`experiment.constraints` element, see `loadExperiment` 580). -/
structure ConstraintConfig where
  ctype : String
  objectAIndex : ℕ
  objectBIndex : Option ℕ
  length : Option ℚ
  stiffness : Option ℚ
deriving DecidableEq, Repr

/-- An experiment preset (`ExperimentPreset`): ordered placements and
index-based constraints. -/
structure Experiment where
  id : String
  objects : List ObjConfig
  constraints : List ConstraintConfig
deriving DecidableEq, Repr

/-- The placement loop of `loadExperiment` (PhysicsCanvas.tsx 548–578):
resolve each placement's definition (skip if unknown), create the body (skip
on failure), apply the optional angle (JavaScript truthiness: an angle of
`0` is not applied — observationally identical, since a fresh body's angle
is `0`), velocity, and static override, add it to the world, register it,
and push it onto the `createdBodies` list.  NOTE (faithful to the source):
`createdBodies` is a compacted `push` list, so a skipped placement leaves no
hole and shifts the positions of all later placements. -/
def loadObjects (catalog : String → Option PhysicsObjectDefinition) :
    List ObjConfig → CanvasState → List Body → CanvasState × List Body
  | [], st, created => (st, created)
  | cfg :: rest, st, created =>
    match catalog cfg.definitionId with
    | none => loadObjects catalog rest st created
    | some defn =>
      match createBody defn cfg.x cfg.y st.nextId with
      | none => loadObjects catalog rest st created
      | some body0 =>
        let body1 := match cfg.angle with
          | some a => if a = 0 then body0 else { body0 with angle := a }
          | none => body0
        let body2 := match cfg.velocity with
          | some v => { body1 with velocity := v }
          | none => body1
        let body3 := match cfg.isStatic with
          | some s => { body2 with isStatic := s }
          | none => body2
        let st' :=
          { st with
            worldBodies := st.worldBodies ++ [body3],
            sceneObjects := st.sceneObjects ++
              [⟨body3.id, defn.id, ⟨cfg.x, cfg.y⟩, body3.angle, defn.customData⟩],
            nextId := st.nextId + 1 }
        loadObjects catalog rest st' (created ++ [body3])

/-- The constraint loop of `loadExperiment` (PhysicsCanvas.tsx 580–602):
look up `bodyA` at `objectAIndex` in the compacted `createdBodies` list and
skip the constraint only when that lookup fails; `bodyB` is looked up only
when `objectBIndex` is present, and a failed `bodyB` lookup still creates
the constraint, just without a second body. -/
def loadConstraints : List ConstraintConfig → List Body → CanvasState → CanvasState
  | [], _, st => st
  | cfg :: rest, created, st =>
    match created[cfg.objectAIndex]? with
    | none => loadConstraints rest created st
    | some bodyA =>
      let bodyB := cfg.objectBIndex.bind (fun i => created[i]?)
      let c : Constr :=
        { bodyAId := bodyA.id,
          bodyBId := bodyB.map (fun b => b.id),
          stiffness := cfg.stiffness.getD 0.4,
          damping := 0.1,
          length := cfg.length }
      loadConstraints rest created { st with worldConstraints := st.worldConstraints ++ [c] }

/-- `loadExperiment` (PhysicsCanvas.tsx 528–605): resolve the preset id
(unknown id: return with no mutation), clear the whole scene exactly as
`clear` does, then run the placement loop and the constraint loop. -/
def loadExperiment (catalogObj : String → Option PhysicsObjectDefinition)
    (catalogExp : String → Option Experiment)
    (st : CanvasState) (experimentId : String) : CanvasState :=
  match catalogExp experimentId with
  | none => st
  | some exp =>
    let st1 := clearScene st
    let p := loadObjects catalogObj exp.objects st1 []
    loadConstraints exp.constraints p.2 p.1

/-- The scene-mutating entry points of the canvas component, as one step
alphabet (selection changes arrive from the parent component through the
`selectedObjectId` prop and are modelled as an explicit operation). -/
inductive Op where
  | drop (defn : PhysicsObjectDefinition) (x y : ℚ)
  | deleteSel
  | eraser (queryResult : List Body)
  | pin (queryResult : List Body)
  | clear
  | load (experimentId : String)
  | reset
  | resetSelPos
  | toggleStatic
  | modify (property : String) (value : ℚ)
  | select (sel : Option ℕ)

/-- Interpret one operation on the canvas state. -/
def stepOp (catalogObj : String → Option PhysicsObjectDefinition)
    (catalogExp : String → Option Experiment) (op : Op) (st : CanvasState) : CanvasState :=
  match op with
  | .drop defn x y => handleDrop st defn x y
  | .deleteSel => deleteSelected st
  | .eraser q => eraserAction st q
  | .pin q => pinAction st q
  | .clear => clearScene st
  | .load eid => loadExperiment catalogObj catalogExp st eid
  | .reset => resetScene st
  | .resetSelPos => resetSelectedPosition st
  | .toggleStatic => toggleSelectedStatic st
  | .modify p v => modifySelectedProperty st p v
  | .select s => { st with selected := s }

/-- Run a sequence of operations. -/
def runOps (catalogObj : String → Option PhysicsObjectDefinition)
    (catalogExp : String → Option Experiment) (ops : List Op) (st : CanvasState) : CanvasState :=
  ops.foldl (fun s o => stepOp catalogObj catalogExp o s) st

/-- Referential well-formedness of the scene: every constraint in the world
has its `bodyA` endpoint tracked by the registry and, when a `bodyB`
endpoint is present, that one tracked too. -/
def WF (st : CanvasState) : Prop :=
  ∀ c ∈ st.worldConstraints,
    (∃ o ∈ st.sceneObjects, o.bodyId = c.bodyAId) ∧
    (c.bodyBId = none ∨ ∃ o ∈ st.sceneObjects, some o.bodyId = c.bodyBId)

instance (st : CanvasState) : Decidable (WF st) := by
  unfold WF; infer_instance

/-- The derived per-tick numeric readout (`PhysicsState` in types). -/
structure PhysicsStateR where
  position : Vec
  velocity : Vec
  acceleration : Vec
  angle : ℚ
  angularVelocity : ℚ
  force : Vec
  mass : ℚ
  speed : ℚ
  kineticEnergy : ℚ
  potentialEnergy : ℚ
  totalEnergy : ℚ
  momentum : Vec
deriving DecidableEq, Repr

/-- `calculatePhysicsState` (PhysicsCanvas.tsx 105–127): the 2D physics
state calculator.  `canvasHeight` models `renderRef.current?.canvas?.height
|| 600`; `mag` models `Matter.Vector.magnitude`. -/
def calculatePhysicsState (mag : Vec → ℚ) (canvasHeight gravityScale : ℚ)
    (b : Body) : PhysicsStateR :=
  let speed := mag b.velocity
  let mass := b.mass
  let kineticEnergy := 0.5 * mass * speed * speed * 100
  let heightFromBottom := canvasHeight - b.position.y
  let potentialEnergy := mass * gravityScale * 9.81 * (heightFromBottom / 100) * 10
  { position := b.position,
    velocity := ⟨b.velocity.x * 60, b.velocity.y * 60⟩,
    acceleration := ⟨0, gravityScale * 9.81⟩,
    angle := b.angle,
    angularVelocity := b.angularVelocity,
    force := b.force,
    mass := mass,
    speed := speed * 60,
    kineticEnergy := kineticEnergy,
    potentialEnergy := max 0 potentialEnergy,
    totalEnergy := kineticEnergy + max 0 potentialEnergy,
    momentum := ⟨mass * b.velocity.x * 60, mass * b.velocity.y * 60⟩ }

/-- 3D vector with rational coordinates (models `THREE.Vector3`). -/
structure Vec3 where
  x : ℚ
  y : ℚ
  z : ℚ
deriving DecidableEq, Repr

/-- The state computed by `handlePhysicsUpdate3D` in the 3D canvas
(src/unnamed/part_006, 494–530).  `mag3` models `THREE.Vector3.length()`.
NOTE (faithful to the source): the kinetic energy here is the bare
`0.5 * mass * speed²`, with no ×100 display constant, and the potential
energy is `mass * gravityScale * 9.81 * max(0, pos.y)`. -/
def physicsState3D (mag3 : Vec3 → ℚ) (gravityScale : ℚ)
    (pos vel : Vec3) (mass : ℚ) : PhysicsStateR :=
  let speed := mag3 vel
  let kineticEnergy := 0.5 * mass * speed * speed
  let potentialEnergy := mass * gravityScale * 9.81 * max 0 pos.y
  { position := ⟨pos.x, pos.y⟩,
    velocity := ⟨vel.x, vel.y⟩,
    acceleration := ⟨0, -(gravityScale * 9.81)⟩,
    angle := 0,
    angularVelocity := 0,
    force := ⟨0, -(mass * gravityScale * 9.81)⟩,
    mass := mass,
    speed := speed,
    kineticEnergy := kineticEnergy,
    potentialEnergy := potentialEnergy,
    totalEnergy := kineticEnergy + potentialEnergy,
    momentum := ⟨mass * vel.x, mass * vel.y⟩ }

/-! ### Shared sample data for concrete witnesses and counterexamples -/

/-- A plain dynamic non-boundary body at a given position with a given mass. -/
def sampleBody (i : ℕ) (pos : Vec) (m : ℚ) : Body :=
  { id := i, label := "Ball", isStatic := false, position := pos,
    velocity := ⟨0, 0⟩, angle := 0, angularVelocity := 0, mass := m,
    force := ⟨0, 0⟩, circleRadius := none }

/-- `jsOrNum` with a non-zero default never returns `0`
(the defaulted strength of an emitter is never `0`). -/
theorem jsOrNum_ne_zero (v : Option ℚ) (dflt : ℚ) (h : dflt ≠ 0) :
    jsOrNum v dflt ≠ 0 := by
  unfold jsOrNum
  match v with
  | none => exact h
  | some x =>
    by_cases hx : x = 0
    · simp only [hx, if_pos rfl]
      exact h
    · simp only [if_neg hx]
      exact hx

/-! ### C1 — fan emitters -/

/--
C1 (amended): for a fan emitter and an eligible body (non-static,
non-boundary, not the emitter's own body), with `s` the effective strength
(the configured `emitterStrength` passed through the JavaScript `||`
default, so a missing or zero strength becomes `0.001`), `θ` the configured
direction and `d` the evaluated distance between body and emitter:
(i) at `d < 300` the evaluator adds exactly the force
`(cos θ · s(1−d/300), sin θ · s(1−d/300))`, i.e. the magnitude profile
`fanForceMag` in the direction of the configured angle;
(ii) at `d ≥ 300` the body is returned unchanged;
(iii) if the direction vector is a unit vector, the squared magnitude of the
applied force is exactly `fanForceMag s d` squared;
(iv) for `s ≥ 0` the magnitude profile is non-increasing in distance.
-/
theorem fan_force_spec
    (mag : Vec → ℚ) (cosDeg sinDeg : ℚ → ℚ) (ed : CustomData) (emitterBody b : Body)
    (s θ d : ℚ)
    (htype : ed.emitterType = some "fan")
    (hid : ¬ b.id = emitterBody.id) (hstat : b.isStatic = false)
    (hlab : ¬ b.label = "Boundary")
    (hs : jsOrNum ed.emitterStrength 0.001 = s)
    (hθ : jsOrNum ed.emitterDirection 0 = θ)
    (hd : mag (Vec.sub b.position emitterBody.position) = d) :
    (d < 300 → applyEmitterToBody mag cosDeg sinDeg ed emitterBody b =
        b.applyForce ⟨cosDeg θ * fanForceMag s d, sinDeg θ * fanForceMag s d⟩) ∧
    (300 ≤ d → applyEmitterToBody mag cosDeg sinDeg ed emitterBody b = b) ∧
    ((cosDeg θ) ^ 2 + (sinDeg θ) ^ 2 = 1 →
      ((applyEmitterToBody mag cosDeg sinDeg ed emitterBody b).force.x - b.force.x) ^ 2 +
      ((applyEmitterToBody mag cosDeg sinDeg ed emitterBody b).force.y - b.force.y) ^ 2 =
        (fanForceMag s d) ^ 2) ∧
    (∀ d1 d2 : ℚ, 0 ≤ s → 0 ≤ d1 → d1 ≤ d2 → fanForceMag s d2 ≤ fanForceMag s d1) := by
  have hres : applyEmitterToBody mag cosDeg sinDeg ed emitterBody b =
      if d < 300 then
        b.applyForce ⟨cosDeg θ * (s * (1 - d / 300)), sinDeg θ * (s * (1 - d / 300))⟩
      else b := by
    unfold applyEmitterToBody
    rw [if_neg (by simp [hid, hstat, hlab])]
    simp only [htype, hs, hθ, hd, Option.some.injEq]
    split_ifs with h1 h2 h2 <;> simp_all
  refine ⟨?_, ?_, ?_, ?_⟩
  · intro h
    rw [hres, if_pos h]
    unfold fanForceMag
    rw [if_pos h]
  · intro h
    rw [hres, if_neg (not_lt.mpr h)]
  · intro hunit
    by_cases h : d < 300
    · rw [hres, if_pos h]
      unfold fanForceMag
      rw [if_pos h]
      simp only [Body.applyForce, add_sub_cancel_left]
      linear_combination (s * (1 - d / 300)) ^ 2 * hunit
    · rw [hres, if_neg h]
      unfold fanForceMag
      rw [if_neg h]
      ring
  · intro d1 d2 hs0 hd1 hle
    unfold fanForceMag
    split_ifs with h1 h2 h2
    · have h12 : 1 - d2 / 300 ≤ 1 - d1 / 300 := by linarith
      exact mul_le_mul_of_nonneg_left h12 hs0
    · exact absurd (lt_of_le_of_lt hle h1) h2
    · exact mul_nonneg hs0 (by linarith)
    · exact le_refl 0

/--
C1 witness: the scenario of the claim, concretely.  A fan at the origin with
strength `0.01` and direction `0°` (so with the true trigonometric values
`cos 0 = 1`, `sin 0 = 0`) leaves a body at distance 301 completely unchanged,
and applies a strictly positive, exactly `+x`-directed force to a body at
distance 100 (both distance oracles certified Euclidean on the vector used).
-/
theorem fan_force_spec_witness :
    MagSpec (fun _ => (301 : ℚ)) (Vec.sub (sampleBody 2 ⟨301, 0⟩ 1).position
      (sampleBody 1 ⟨0, 0⟩ 1).position) ∧
    applyEmitterToBody (fun _ => 301) (fun _ => 1) (fun _ => 0)
      ⟨some "fan", some 0.01, some 0⟩ (sampleBody 1 ⟨0, 0⟩ 1)
      (sampleBody 2 ⟨301, 0⟩ 1) = sampleBody 2 ⟨301, 0⟩ 1 ∧
    MagSpec (fun _ => (100 : ℚ)) (Vec.sub (sampleBody 3 ⟨100, 0⟩ 1).position
      (sampleBody 1 ⟨0, 0⟩ 1).position) ∧
    0 < (applyEmitterToBody (fun _ => 100) (fun _ => 1) (fun _ => 0)
      ⟨some "fan", some 0.01, some 0⟩ (sampleBody 1 ⟨0, 0⟩ 1)
      (sampleBody 3 ⟨100, 0⟩ 1)).force.x ∧
    (applyEmitterToBody (fun _ => 100) (fun _ => 1) (fun _ => 0)
      ⟨some "fan", some 0.01, some 0⟩ (sampleBody 1 ⟨0, 0⟩ 1)
      (sampleBody 3 ⟨100, 0⟩ 1)).force.y = 0 := by
  have h301 := fan_force_spec (fun _ => 301) (fun _ => 1) (fun _ => 0)
    ⟨some "fan", some 0.01, some 0⟩ (sampleBody 1 ⟨0, 0⟩ 1) (sampleBody 2 ⟨301, 0⟩ 1)
    0.01 0 301 rfl (by simp [sampleBody]) rfl (by simp [sampleBody])
    (by norm_num [jsOrNum]) (by norm_num [jsOrNum]) rfl
  have h100 := fan_force_spec (fun _ => 100) (fun _ => 1) (fun _ => 0)
    ⟨some "fan", some 0.01, some 0⟩ (sampleBody 1 ⟨0, 0⟩ 1) (sampleBody 3 ⟨100, 0⟩ 1)
    0.01 0 100 rfl (by simp [sampleBody]) rfl (by simp [sampleBody])
    (by norm_num [jsOrNum]) (by norm_num [jsOrNum]) rfl
  refine ⟨⟨by norm_num, by norm_num [Vec.normSq, Vec.sub, sampleBody]⟩,
    h301.2.1 (by norm_num),
    ⟨by norm_num, by norm_num [Vec.normSq, Vec.sub, sampleBody]⟩, ?_, ?_⟩
  · rw [h100.1 (by norm_num)]
    norm_num [Body.applyForce, sampleBody, fanForceMag]
  · rw [h100.1 (by norm_num)]
    norm_num [Body.applyForce, sampleBody, fanForceMag]

/--
C1 counterexample: the claim as stated is false for a fan whose configured
`emitterStrength` is `0`.  The code reads the strength through JavaScript
`||`, which treats `0` as missing and substitutes `0.001`, so a fan with
configured strength `0` at distance `150` applies a force of `x`-magnitude
`0.001 · (1 − 150/300) = 1/2000` — while the claim's formula
`strength × (1 − d/300)` demands magnitude `0 × (1 − 150/300) = 0`.
-/
theorem fan_force_strength_zero_counterexample :
    MagSpec (fun _ => (150 : ℚ)) (Vec.sub (sampleBody 2 ⟨150, 0⟩ 1).position
      (sampleBody 1 ⟨0, 0⟩ 1).position) ∧
    (applyEmitterToBody (fun _ => 150) (fun _ => 1) (fun _ => 0)
      ⟨some "fan", some 0, some 0⟩ (sampleBody 1 ⟨0, 0⟩ 1)
      (sampleBody 2 ⟨150, 0⟩ 1)).force.x = 1 / 2000 ∧
    (0 : ℚ) * (1 - 150 / 300) = 0 ∧
    (1 / 2000 : ℚ) ≠ 0 := by
  refine ⟨⟨by norm_num, by norm_num [Vec.normSq, Vec.sub, sampleBody]⟩, ?_,
    by norm_num, by norm_num⟩
  norm_num [applyEmitterToBody, jsOrNum, sampleBody, Body.applyForce, Vec.sub]
  rw [if_neg (by decide : ¬ ("Ball" : String) = "Boundary"),
    if_neg (by decide : ¬ ("fan" : String) = "gravity_well")]

/-! ### C2 — gravity-well emitters -/

/--
C2 (amended): for a gravity-well emitter and an eligible body, with `s` the
effective strength (configured `emitterStrength` through the JavaScript `||`
default, so missing/zero becomes `0.001`) and `d` the Euclidean distance
(certified by `MagSpec` on both vectors the code measures):
(i) inside the band `30 < d < 250` the evaluator adds the force
`((e−b)/d) · s·mass·50000/d²` — the unit vector from the body toward the
emitter scaled by the magnitude profile `gravityWellForceMag`;
(ii) outside the band (`d ≤ 30` or `d ≥ 250`) the body is unchanged;
(iii) the squared magnitude of the applied force is exactly
`gravityWellForceMag s mass d` squared;
(iv) inside the band a body of positive mass is genuinely affected
(the result differs from the input);
(v) for positive strength and fixed positive mass the magnitude profile is
strictly decreasing in distance within the band.
-/
theorem gravity_well_force_spec
    (mag : Vec → ℚ) (cosDeg sinDeg : ℚ → ℚ) (ed : CustomData) (emitterBody b : Body)
    (s d : ℚ)
    (htype : ed.emitterType = some "gravity_well")
    (hid : ¬ b.id = emitterBody.id) (hstat : b.isStatic = false)
    (hlab : ¬ b.label = "Boundary")
    (hs : jsOrNum ed.emitterStrength 0.001 = s)
    (hd : mag (Vec.sub b.position emitterBody.position) = d)
    (hmv : MagSpec mag (Vec.sub b.position emitterBody.position))
    (hmw : MagSpec mag (Vec.sub emitterBody.position b.position)) :
    (30 < d → d < 250 → applyEmitterToBody mag cosDeg sinDeg ed emitterBody b =
        b.applyForce
          ⟨(emitterBody.position.x - b.position.x) / d * gravityWellForceMag s b.mass d,
           (emitterBody.position.y - b.position.y) / d * gravityWellForceMag s b.mass d⟩) ∧
    (d ≤ 30 ∨ 250 ≤ d → applyEmitterToBody mag cosDeg sinDeg ed emitterBody b = b) ∧
    (((applyEmitterToBody mag cosDeg sinDeg ed emitterBody b).force.x - b.force.x) ^ 2 +
     ((applyEmitterToBody mag cosDeg sinDeg ed emitterBody b).force.y - b.force.y) ^ 2 =
       (gravityWellForceMag s b.mass d) ^ 2) ∧
    (0 < b.mass → 30 < d → d < 250 →
      applyEmitterToBody mag cosDeg sinDeg ed emitterBody b ≠ b) ∧
    (∀ m d1 d2 : ℚ, 0 < s → 0 < m → 30 < d1 → d1 < d2 → d2 < 250 →
      gravityWellForceMag s m d2 < gravityWellForceMag s m d1) := by
  have hd0 : 0 ≤ d := hd ▸ hmv.1
  have hw : mag (Vec.sub emitterBody.position b.position) = d := by
    have h1 : (mag (Vec.sub emitterBody.position b.position)) ^ 2 = d ^ 2 := by
      rw [hmw.2, ← hd, hmv.2]
      unfold Vec.sub Vec.normSq
      ring
    exact (sq_eq_sq₀ hmw.1 hd0).mp h1
  have hd2 : (emitterBody.position.x - b.position.x) ^ 2 +
      (emitterBody.position.y - b.position.y) ^ 2 = d ^ 2 := by
    have h := hmv.2
    rw [hd] at h
    simp only [Vec.sub, Vec.normSq] at h
    linear_combination -h
  have hres : applyEmitterToBody mag cosDeg sinDeg ed emitterBody b =
      if d < 250 ∧ d > 30 then
        b.applyForce
          ⟨(normalise mag (Vec.sub emitterBody.position b.position)).x *
             (s * b.mass * 50000 / (d * d)),
           (normalise mag (Vec.sub emitterBody.position b.position)).y *
             (s * b.mass * 50000 / (d * d))⟩
      else b := by
    unfold applyEmitterToBody
    rw [if_neg (by simp [hid, hstat, hlab])]
    simp only [htype, hs, hd, Option.some.injEq]
    split_ifs with h1 h2 h2 <;> simp_all
  have hnorm : 30 < d →
      normalise mag (Vec.sub emitterBody.position b.position) =
        ⟨(emitterBody.position.x - b.position.x) / d,
         (emitterBody.position.y - b.position.y) / d⟩ := by
    intro hin
    unfold normalise
    rw [hw, if_neg (by linarith)]
    simp [Vec.sub]
  refine ⟨?_, ?_, ?_, ?_, ?_⟩
  · intro h30 h250
    rw [hres, if_pos ⟨h250, h30⟩, hnorm h30]
    unfold gravityWellForceMag
    rw [if_pos ⟨h250, h30⟩]
  · intro h
    rw [hres, if_neg]
    rintro ⟨h1, h2⟩
    rcases h with h | h <;> linarith
  · by_cases hband : d < 250 ∧ d > 30
    · rw [hres, if_pos hband, hnorm hband.2]
      simp only [Body.applyForce, add_sub_cancel_left]
      unfold gravityWellForceMag
      rw [if_pos hband]
      have hdne : d ≠ 0 := by linarith [hband.2]
      have key : ((emitterBody.position.x - b.position.x) / d) ^ 2 +
          ((emitterBody.position.y - b.position.y) / d) ^ 2 = 1 := by
        field_simp
        linarith [hd2]
      linear_combination (s * b.mass * 50000 / (d * d)) ^ 2 * key
    · rw [hres, if_neg hband]
      unfold gravityWellForceMag
      rw [if_neg hband]
      ring
  · intro hmass h30 h250
    have hsne : s ≠ 0 := by
      rw [← hs]; exact jsOrNum_ne_zero _ _ (by norm_num)
    have hdne : d ≠ 0 := by linarith
    have hfm : s * b.mass * 50000 / (d * d) ≠ 0 := by
      apply div_ne_zero
      · exact mul_ne_zero (mul_ne_zero hsne (by linarith)) (by norm_num)
      · exact mul_ne_zero hdne hdne
    rw [hres, if_pos ⟨h250, h30⟩, hnorm h30]
    intro hcontra
    have hx : b.force.x + (emitterBody.position.x - b.position.x) / d *
        (s * b.mass * 50000 / (d * d)) = b.force.x := by
      have := congrArg (fun bb => bb.force.x) hcontra
      simpa [Body.applyForce] using this
    have hy : b.force.y + (emitterBody.position.y - b.position.y) / d *
        (s * b.mass * 50000 / (d * d)) = b.force.y := by
      have := congrArg (fun bb => bb.force.y) hcontra
      simpa [Body.applyForce] using this
    have hx0 : (emitterBody.position.x - b.position.x) / d *
        (s * b.mass * 50000 / (d * d)) = 0 := by linarith
    have hy0 : (emitterBody.position.y - b.position.y) / d *
        (s * b.mass * 50000 / (d * d)) = 0 := by linarith
    have hxz : emitterBody.position.x - b.position.x = 0 := by
      rcases mul_eq_zero.mp hx0 with h | h
      · rcases div_eq_zero_iff.mp h with h' | h'
        · exact h'
        · exact absurd h' hdne
      · exact absurd h hfm
    have hyz : emitterBody.position.y - b.position.y = 0 := by
      rcases mul_eq_zero.mp hy0 with h | h
      · rcases div_eq_zero_iff.mp h with h' | h'
        · exact h'
        · exact absurd h' hdne
      · exact absurd h hfm
    nlinarith [hd2]
  · intro m d1 d2 hspos hmpos h30 h12 h250
    unfold gravityWellForceMag
    rw [if_pos ⟨h250, by linarith⟩, if_pos ⟨by linarith, h30⟩]
    apply div_lt_div_of_pos_left
    · positivity
    · nlinarith
    · nlinarith

/--
C2 witness: a gravity well at the origin with strength `0.0001` and a unit
mass body at distance `100` (inside the band): the evaluator pulls the body
toward the emitter with a strictly negative `x`-force (the body sits at
`x = 100`) of squared magnitude `(0.0001·1·50000/100²)²`, and the same
emitter leaves a body at distance `250` unchanged.
-/
theorem gravity_well_force_spec_witness :
    MagSpec (fun _ => (100 : ℚ)) (Vec.sub (sampleBody 2 ⟨100, 0⟩ 1).position
      (sampleBody 1 ⟨0, 0⟩ 1).position) ∧
    (applyEmitterToBody (fun _ => 100) (fun _ => 1) (fun _ => 0)
      ⟨some "gravity_well", some 0.0001, none⟩ (sampleBody 1 ⟨0, 0⟩ 1)
      (sampleBody 2 ⟨100, 0⟩ 1)).force.x < 0 ∧
    ((applyEmitterToBody (fun _ => 100) (fun _ => 1) (fun _ => 0)
        ⟨some "gravity_well", some 0.0001, none⟩ (sampleBody 1 ⟨0, 0⟩ 1)
        (sampleBody 2 ⟨100, 0⟩ 1)).force.x - (0 : ℚ)) ^ 2 +
      ((applyEmitterToBody (fun _ => 100) (fun _ => 1) (fun _ => 0)
        ⟨some "gravity_well", some 0.0001, none⟩ (sampleBody 1 ⟨0, 0⟩ 1)
        (sampleBody 2 ⟨100, 0⟩ 1)).force.y - (0 : ℚ)) ^ 2 =
      (gravityWellForceMag 0.0001 1 100) ^ 2 ∧
    applyEmitterToBody (fun _ => 250) (fun _ => 1) (fun _ => 0)
      ⟨some "gravity_well", some 0.0001, none⟩ (sampleBody 1 ⟨0, 0⟩ 1)
      (sampleBody 3 ⟨250, 0⟩ 1) = sampleBody 3 ⟨250, 0⟩ 1 := by
  have h100 := gravity_well_force_spec (fun _ => 100) (fun _ => 1) (fun _ => 0)
    ⟨some "gravity_well", some 0.0001, none⟩ (sampleBody 1 ⟨0, 0⟩ 1)
    (sampleBody 2 ⟨100, 0⟩ 1) 0.0001 100 rfl (by simp [sampleBody]) rfl
    (by simp [sampleBody]) (by norm_num [jsOrNum]) rfl
    ⟨by norm_num, by norm_num [Vec.normSq, Vec.sub, sampleBody]⟩
    ⟨by norm_num, by norm_num [Vec.normSq, Vec.sub, sampleBody]⟩
  have h250 := gravity_well_force_spec (fun _ => 250) (fun _ => 1) (fun _ => 0)
    ⟨some "gravity_well", some 0.0001, none⟩ (sampleBody 1 ⟨0, 0⟩ 1)
    (sampleBody 3 ⟨250, 0⟩ 1) 0.0001 250 rfl (by simp [sampleBody]) rfl
    (by simp [sampleBody]) (by norm_num [jsOrNum]) rfl
    ⟨by norm_num, by norm_num [Vec.normSq, Vec.sub, sampleBody]⟩
    ⟨by norm_num, by norm_num [Vec.normSq, Vec.sub, sampleBody]⟩
  refine ⟨⟨by norm_num, by norm_num [Vec.normSq, Vec.sub, sampleBody]⟩, ?_, ?_, ?_⟩
  · rw [h100.1 (by norm_num) (by norm_num)]
    norm_num [Body.applyForce, sampleBody, gravityWellForceMag]
  · have := h100.2.2.1
    simpa [sampleBody] using this
  · exact h250.2.1 (Or.inr (by norm_num))

/--
C2 counterexample: the claim as stated is false for a gravity well whose
configured `emitterStrength` is `0`.  The code substitutes `0.001` for a
zero strength (JavaScript `||`), so with a unit-mass body at distance 100
the applied force has `x`-component `−0.001·1·50000/100² = −1/200`, while
the claim's magnitude formula `strength × mass × 50000 / d²` demands `0`.
-/
theorem gravity_well_strength_zero_counterexample :
    MagSpec (fun _ => (100 : ℚ)) (Vec.sub (sampleBody 2 ⟨100, 0⟩ 1).position
      (sampleBody 1 ⟨0, 0⟩ 1).position) ∧
    MagSpec (fun _ => (100 : ℚ)) (Vec.sub (sampleBody 1 ⟨0, 0⟩ 1).position
      (sampleBody 2 ⟨100, 0⟩ 1).position) ∧
    (applyEmitterToBody (fun _ => 100) (fun _ => 1) (fun _ => 0)
      ⟨some "gravity_well", some 0, none⟩ (sampleBody 1 ⟨0, 0⟩ 1)
      (sampleBody 2 ⟨100, 0⟩ 1)).force.x = -(1 / 200) ∧
    (0 : ℚ) * 1 * 50000 / (100 * 100) = 0 ∧
    (-(1 / 200) : ℚ) ≠ 0 := by
  refine ⟨⟨by norm_num, by norm_num [Vec.normSq, Vec.sub, sampleBody]⟩,
    ⟨by norm_num, by norm_num [Vec.normSq, Vec.sub, sampleBody]⟩, ?_,
    by norm_num, by norm_num⟩
  norm_num [applyEmitterToBody, jsOrNum, sampleBody, Body.applyForce, Vec.sub, normalise]
  rw [if_neg (by decide : ¬ ("Ball" : String) = "Boundary"),
    if_neg (by decide : ¬ ("gravity_well" : String) = "fan")]
  norm_num

/-! ### C9 / C10 — bodies the evaluator never touches -/

/-- Helper: the emitter fold leaves any body fixed by every per-emitter
application exactly in place (same list position, same value). -/
theorem foldl_emitters_getElem_fixed (mag : Vec → ℚ) (cosDeg sinDeg : ℚ → ℚ) :
    ∀ (es : List (CustomData × Body)) (bodies : List Body) (i : ℕ) (b : Body),
      bodies[i]? = some b →
      (∀ ed eb, applyEmitterToBody mag cosDeg sinDeg ed eb b = b) →
      (es.foldl (fun bs e => bs.map (applyEmitterToBody mag cosDeg sinDeg e.1 e.2))
        bodies)[i]? = some b
  | [], _, _, _, hi, _ => hi
  | e :: rest, bodies, i, b, hi, hfix => by
    simp only [List.foldl_cons]
    apply foldl_emitters_getElem_fixed mag cosDeg sinDeg rest
    · rw [List.getElem?_map, hi]
      simp [hfix]
    · exact hfix

/-- Helper: if every emitter of the list acts as the identity on every body,
the whole fold is the identity. -/
theorem foldl_emitters_id (mag : Vec → ℚ) (cosDeg sinDeg : ℚ → ℚ) :
    ∀ (es : List (CustomData × Body)) (bodies : List Body),
      (∀ e ∈ es, ∀ b, applyEmitterToBody mag cosDeg sinDeg e.1 e.2 b = b) →
      es.foldl (fun bs e => bs.map (applyEmitterToBody mag cosDeg sinDeg e.1 e.2))
        bodies = bodies
  | [], _, _ => rfl
  | e :: rest, bodies, h => by
    simp only [List.foldl_cons]
    have he := h e (List.mem_cons_self e rest)
    have hmap : bodies.map (applyEmitterToBody mag cosDeg sinDeg e.1 e.2) = bodies := by
      induction bodies with
      | nil => rfl
      | cons x xs ih => simp [he, ih]
    rw [hmap]
    exact foldl_emitters_id mag cosDeg sinDeg rest bodies
      (fun e' he' b => h e' (List.mem_cons_of_mem e he') b)

/--
C9: the evaluator never applies a force to a static body, a
boundary-labelled body, or the body of the emitter being evaluated:
(i) one emitter-body step returns such a body literally unchanged
(every field), and (ii) one full run of `applyForceEmitters` leaves every
static or boundary body of the world list unchanged in its position.
-/
theorem evaluator_skips_protected_bodies (mag : Vec → ℚ) (cosDeg sinDeg : ℚ → ℚ) :
    (∀ (ed : CustomData) (emitterBody b : Body),
      b.id = emitterBody.id ∨ b.isStatic = true ∨ b.label = "Boundary" →
      applyEmitterToBody mag cosDeg sinDeg ed emitterBody b = b) ∧
    (∀ (scene : List (CustomData × Body)) (bodies : List Body) (i : ℕ) (b : Body),
      bodies[i]? = some b →
      b.isStatic = true ∨ b.label = "Boundary" →
      (applyForceEmitters mag cosDeg sinDeg scene bodies)[i]? = some b) := by
  have h1 : ∀ (ed : CustomData) (emitterBody b : Body),
      b.id = emitterBody.id ∨ b.isStatic = true ∨ b.label = "Boundary" →
      applyEmitterToBody mag cosDeg sinDeg ed emitterBody b = b := by
    intro ed emitterBody b h
    unfold applyEmitterToBody
    rw [if_pos h]
  refine ⟨h1, ?_⟩
  intro scene bodies i b hi hb
  unfold applyForceEmitters
  exact foldl_emitters_getElem_fixed mag cosDeg sinDeg _ bodies i b hi
    (fun ed eb => h1 ed eb b (Or.inr (hb.imp id id)))

/--
C9 witness: a concrete run with a fan emitter over a world containing a
static body and a boundary body: both come out at their positions,
completely unchanged.
-/
theorem evaluator_skips_protected_bodies_witness :
    (applyForceEmitters (fun _ => 10) (fun _ => 1) (fun _ => 0)
      [(⟨some "fan", some 0.005, some 0⟩, sampleBody 1 ⟨0, 0⟩ 1)]
      [{ sampleBody 2 ⟨10, 0⟩ 1 with isStatic := true },
       { sampleBody 3 ⟨20, 0⟩ 1 with label := "Boundary" }])[0]? =
      some { sampleBody 2 ⟨10, 0⟩ 1 with isStatic := true } ∧
    (applyForceEmitters (fun _ => 10) (fun _ => 1) (fun _ => 0)
      [(⟨some "fan", some 0.005, some 0⟩, sampleBody 1 ⟨0, 0⟩ 1)]
      [{ sampleBody 2 ⟨10, 0⟩ 1 with isStatic := true },
       { sampleBody 3 ⟨20, 0⟩ 1 with label := "Boundary" }])[1]? =
      some { sampleBody 3 ⟨20, 0⟩ 1 with label := "Boundary" } := by
  constructor
  · exact (evaluator_skips_protected_bodies (fun _ => 10) (fun _ => 1) (fun _ => 0)).2
      _ _ 0 _ rfl (Or.inl rfl)
  · exact (evaluator_skips_protected_bodies (fun _ => 10) (fun _ => 1) (fun _ => 0)).2
      _ _ 1 _ rfl (Or.inr rfl)

/--
C10: an emitter whose `emitterType` is `magnet`, `rocket` or `wind`
(anything other than the two implemented branches) applies no force at all:
(i) its per-body step is the identity on every body, and (ii) a run of the
evaluator over a registry whose emitters all carry such types returns the
world body list exactly unchanged.
-/
theorem unimplemented_emitter_types_no_force (mag : Vec → ℚ) (cosDeg sinDeg : ℚ → ℚ) :
    (∀ (ed : CustomData) (emitterBody : Body) (t : String),
      ed.emitterType = some t →
      t = "magnet" ∨ t = "rocket" ∨ t = "wind" →
      ∀ b, applyEmitterToBody mag cosDeg sinDeg ed emitterBody b = b) ∧
    (∀ (scene : List (CustomData × Body)) (bodies : List Body),
      (∀ e ∈ scene, ∀ t, e.1.emitterType = some t →
        t = "magnet" ∨ t = "rocket" ∨ t = "wind") →
      applyForceEmitters mag cosDeg sinDeg scene bodies = bodies) := by
  have h1 : ∀ (ed : CustomData) (emitterBody : Body) (t : String),
      ed.emitterType = some t →
      t = "magnet" ∨ t = "rocket" ∨ t = "wind" →
      ∀ b, applyEmitterToBody mag cosDeg sinDeg ed emitterBody b = b := by
    intro ed emitterBody t htype ht b
    unfold applyEmitterToBody
    by_cases hskip : b.id = emitterBody.id ∨ b.isStatic = true ∨ b.label = "Boundary"
    · rw [if_pos hskip]
    · rw [if_neg hskip]
      rcases ht with h | h | h <;> subst h <;> simp [htype]
  refine ⟨h1, ?_⟩
  intro scene bodies hscene
  unfold applyForceEmitters
  apply foldl_emitters_id
  intro e he b
  have hmem := List.mem_of_mem_filter he
  have hsome := List.of_mem_filter he
  match htE : e.1.emitterType with
  | none => simp [htE] at hsome
  | some t => exact h1 e.1 e.2 t htE (hscene e hmem t htE) b

/--
C10 witness: a magnet emitter and a rocket emitter acting on a world of two
dynamic bodies change nothing: the evaluator returns the body list verbatim.
-/
theorem unimplemented_emitter_types_no_force_witness :
    applyForceEmitters (fun _ => 10) (fun _ => 1) (fun _ => 0)
      [(⟨some "magnet", some 0.0001, none⟩, sampleBody 1 ⟨0, 0⟩ 1),
       (⟨some "rocket", some 0.015, some (-90)⟩, sampleBody 2 ⟨5, 5⟩ 1)]
      [sampleBody 3 ⟨10, 0⟩ 1, sampleBody 4 ⟨20, 0⟩ 2] =
      [sampleBody 3 ⟨10, 0⟩ 1, sampleBody 4 ⟨20, 0⟩ 2] := by
  apply (unimplemented_emitter_types_no_force (fun _ => 10) (fun _ => 1) (fun _ => 0)).2
  intro e he t htype
  simp only [List.mem_cons, List.not_mem_nil, or_false] at he
  rcases he with he | he <;> subst he <;> simp_all

/-! ### C5 — unknown preset is a strict no-op -/

/--
C5: `loadExperiment` called with a preset id that resolves to no known
experiment returns the state entirely unchanged — bodies, constraints,
registry, motion trails and selection all exactly as they were.
-/
theorem loadExperiment_unknown_preset_no_mutation
    (catalogObj : String → Option PhysicsObjectDefinition)
    (catalogExp : String → Option Experiment)
    (st : CanvasState) (experimentId : String)
    (h : catalogExp experimentId = none) :
    loadExperiment catalogObj catalogExp st experimentId = st := by
  unfold loadExperiment
  rw [h]

/--
C5 witness: a populated scene (one body, one constraint, one registry entry,
one motion trail, a selection) is bit-for-bit untouched by a load request
for a preset id the catalog does not know.
-/
theorem loadExperiment_unknown_preset_no_mutation_witness :
    loadExperiment (fun _ => none) (fun _ => none)
      { worldBodies := [sampleBody 1 ⟨5, 5⟩ 1],
        worldConstraints := [⟨1, none, 1, 0.1, none⟩],
        sceneObjects := [⟨1, "wooden_box", ⟨5, 5⟩, 0, ⟨none, none, none⟩⟩],
        motionTrails := [(1, [⟨5, 5⟩])],
        selected := some 1, nextId := 2 } "no_such_preset" =
      { worldBodies := [sampleBody 1 ⟨5, 5⟩ 1],
        worldConstraints := [⟨1, none, 1, 0.1, none⟩],
        sceneObjects := [⟨1, "wooden_box", ⟨5, 5⟩, 0, ⟨none, none, none⟩⟩],
        motionTrails := [(1, [⟨5, 5⟩])],
        selected := some 1, nextId := 2 } :=
  loadExperiment_unknown_preset_no_mutation _ _ _ _ rfl

/-! ### C4 — createBody failure behaviour -/

/--
C4 (amended): `createBody` fails (returns no body) exactly when the
definition's shape tag is none of rectangle/circle/polygon — incomplete
shape parameters such as a missing circle radius do NOT fail but are
defaulted — and on failure `handleDrop` is a complete no-op: no body is
added and no registry entry is created.
-/
theorem createBody_failure_spec
    (defn : PhysicsObjectDefinition) (x y : ℚ) (n : ℕ) (st : CanvasState) :
    (createBody defn x y n = none ↔
      defn.type ≠ "rectangle" ∧ defn.type ≠ "circle" ∧ defn.type ≠ "polygon") ∧
    (createBody defn x y st.nextId = none → handleDrop st defn x y = st) := by
  constructor
  · unfold createBody
    split_ifs with h1 h2 h3 <;> simp_all
  · intro h
    unfold handleDrop
    rw [h]

/--
C4 witness: a definition with the unsupported shape tag `trapezoid`
(a member of the repository's `ShapeType` union that `createBody` does not
handle) fails, and dropping it onto a populated scene changes nothing.
-/
theorem createBody_failure_spec_witness :
    createBody ⟨"ramp_trap", "trapezoid", some 80, some 40, none, none,
        ⟨none, none, none, none, none⟩, ⟨none, none, none⟩⟩ 10 20 2 = none ∧
    handleDrop
      { worldBodies := [sampleBody 1 ⟨5, 5⟩ 1],
        worldConstraints := [], sceneObjects := [⟨1, "wooden_box", ⟨5, 5⟩, 0, ⟨none, none, none⟩⟩],
        motionTrails := [], selected := none, nextId := 2 }
      ⟨"ramp_trap", "trapezoid", some 80, some 40, none, none,
        ⟨none, none, none, none, none⟩, ⟨none, none, none⟩⟩ 10 20 =
      { worldBodies := [sampleBody 1 ⟨5, 5⟩ 1],
        worldConstraints := [], sceneObjects := [⟨1, "wooden_box", ⟨5, 5⟩, 0, ⟨none, none, none⟩⟩],
        motionTrails := [], selected := none, nextId := 2 } := by
  have h := createBody_failure_spec
    ⟨"ramp_trap", "trapezoid", some 80, some 40, none, none,
      ⟨none, none, none, none, none⟩, ⟨none, none, none⟩⟩ 10 20 2
    { worldBodies := [sampleBody 1 ⟨5, 5⟩ 1],
      worldConstraints := [], sceneObjects := [⟨1, "wooden_box", ⟨5, 5⟩, 0, ⟨none, none, none⟩⟩],
      motionTrails := [], selected := none, nextId := 2 }
  have hfail := h.1.mpr ⟨by simp, by simp, by simp⟩
  exact ⟨hfail, h.2 hfail⟩

/--
C4 counterexample: the claim as stated is false — a circle definition with
no radius does not fail with `InvalidDefinition`; `createBody` happily
builds the body with the `||`-defaulted radius 25.
-/
theorem createBody_missing_radius_counterexample :
    createBody ⟨"mystery_ball", "circle", none, none, none, none,
        ⟨none, none, none, none, none⟩, ⟨none, none, none⟩⟩ 10 20 7 =
      some { id := 7, label := "mystery_ball", isStatic := false,
             position := ⟨10, 20⟩, velocity := ⟨0, 0⟩, angle := 0,
             angularVelocity := 0, mass := 1, force := ⟨0, 0⟩,
             circleRadius := some 25 } := by
  simp [createBody, jsOrNum]

/-! ### Loader structure lemmas (shared by the loading claims) -/

/-- `(l[i]?).isSome` exactly characterises in-range indices. -/
theorem getElem?_isSome_iff_lt {α : Type} (l : List α) (i : ℕ) :
    (l[i]?).isSome = true ↔ i < l.length := by
  rw [Option.isSome_iff_exists]
  constructor
  · rintro ⟨a, h⟩
    exact (List.getElem?_eq_some.mp h).1
  · intro h
    exact ⟨l[i], List.getElem?_eq_some.mpr ⟨h, rfl⟩⟩

/-- The placement loop never touches the constraint list, the motion trails
or the selection. -/
theorem loadObjects_const_fields (catalog : String → Option PhysicsObjectDefinition) :
    ∀ (cfgs : List ObjConfig) (st : CanvasState) (created : List Body),
      (loadObjects catalog cfgs st created).1.worldConstraints = st.worldConstraints ∧
      (loadObjects catalog cfgs st created).1.motionTrails = st.motionTrails ∧
      (loadObjects catalog cfgs st created).1.selected = st.selected
  | [], _, _ => ⟨rfl, rfl, rfl⟩
  | cfg :: rest, st, created => by
    cases hcat : catalog cfg.definitionId with
    | none =>
      simp only [loadObjects, hcat]
      exact loadObjects_const_fields catalog rest st created
    | some defn =>
      cases hcb : createBody defn cfg.x cfg.y st.nextId with
      | none =>
        simp only [loadObjects, hcat, hcb]
        exact loadObjects_const_fields catalog rest st created
      | some body0 =>
        simp only [loadObjects, hcat, hcb]
        exact loadObjects_const_fields catalog rest _ _

/-- The placement loop only appends world bodies: everything already in the
world stays in it. -/
theorem loadObjects_worldBodies_mono (catalog : String → Option PhysicsObjectDefinition) :
    ∀ (cfgs : List ObjConfig) (st : CanvasState) (created : List Body) (b : Body),
      b ∈ st.worldBodies →
      b ∈ (loadObjects catalog cfgs st created).1.worldBodies
  | [], _, _, _, hb => hb
  | cfg :: rest, st, created, b, hb => by
    cases hcat : catalog cfg.definitionId with
    | none =>
      simp only [loadObjects, hcat]
      exact loadObjects_worldBodies_mono catalog rest st created b hb
    | some defn =>
      cases hcb : createBody defn cfg.x cfg.y st.nextId with
      | none =>
        simp only [loadObjects, hcat, hcb]
        exact loadObjects_worldBodies_mono catalog rest st created b hb
      | some body0 =>
        simp only [loadObjects, hcat, hcb]
        exact loadObjects_worldBodies_mono catalog rest _ _ b (List.mem_append_left _ hb)

/-- Every registry record after the placement loop either predates it or
records the catalog definition of one of the processed placements. -/
theorem loadObjects_sceneObjects_from (catalog : String → Option PhysicsObjectDefinition) :
    ∀ (cfgs : List ObjConfig) (st : CanvasState) (created : List Body)
      (o : SceneObject), o ∈ (loadObjects catalog cfgs st created).1.sceneObjects →
      o ∈ st.sceneObjects ∨
        ∃ cfg ∈ cfgs, ∃ defn, catalog cfg.definitionId = some defn ∧
          o.definitionId = defn.id
  | [], _, _, _, ho => Or.inl ho
  | cfg :: rest, st, created, o, ho => by
    cases hcat : catalog cfg.definitionId with
    | none =>
      simp only [loadObjects, hcat] at ho
      rcases loadObjects_sceneObjects_from catalog rest st created o ho with h | ⟨c, hc, d, hd1, hd2⟩
      · exact Or.inl h
      · exact Or.inr ⟨c, List.mem_cons_of_mem _ hc, d, hd1, hd2⟩
    | some defn =>
      cases hcb : createBody defn cfg.x cfg.y st.nextId with
      | none =>
        simp only [loadObjects, hcat, hcb] at ho
        rcases loadObjects_sceneObjects_from catalog rest st created o ho with h | ⟨c, hc, d, hd1, hd2⟩
        · exact Or.inl h
        · exact Or.inr ⟨c, List.mem_cons_of_mem _ hc, d, hd1, hd2⟩
      | some body0 =>
        simp only [loadObjects, hcat, hcb] at ho
        rcases loadObjects_sceneObjects_from catalog rest _ _ o ho with h | ⟨c, hc, d, hd1, hd2⟩
        · rcases List.mem_append.mp h with h' | h'
          · exact Or.inl h'
          · have he := List.mem_singleton.mp h'
            subst he
            exact Or.inr ⟨cfg, List.mem_cons_self _ _, defn, hcat, rfl⟩
        · exact Or.inr ⟨c, List.mem_cons_of_mem _ hc, d, hd1, hd2⟩

/-- The constraint loop never touches bodies, registry, trails or selection. -/
theorem loadConstraints_fields :
    ∀ (ccs : List ConstraintConfig) (created : List Body) (st : CanvasState),
      (loadConstraints ccs created st).worldBodies = st.worldBodies ∧
      (loadConstraints ccs created st).sceneObjects = st.sceneObjects ∧
      (loadConstraints ccs created st).motionTrails = st.motionTrails ∧
      (loadConstraints ccs created st).selected = st.selected
  | [], _, _ => ⟨rfl, rfl, rfl, rfl⟩
  | cfg :: rest, created, st => by
    cases hA : created[cfg.objectAIndex]? with
    | none =>
      simp only [loadConstraints, hA]
      exact loadConstraints_fields rest created st
    | some bodyA =>
      simp only [loadConstraints, hA]
      exact loadConstraints_fields rest created _

/-- Closed form of the constraint loop: exactly the configurations whose
(compacted-list) `objectAIndex` lookup succeeds become constraints, in
order, with `bodyB` attached only when its own lookup succeeds. -/
theorem loadConstraints_worldConstraints :
    ∀ (ccs : List ConstraintConfig) (created : List Body) (st : CanvasState),
      (loadConstraints ccs created st).worldConstraints =
        st.worldConstraints ++ ccs.filterMap (fun cfg =>
          (created[cfg.objectAIndex]?).map (fun bodyA =>
            ({ bodyAId := bodyA.id,
               bodyBId := (cfg.objectBIndex.bind (fun i => created[i]?)).map
                 (fun b => b.id),
               stiffness := cfg.stiffness.getD 0.4,
               damping := 0.1,
               length := cfg.length } : Constr)))
  | [], created, st => by simp [loadConstraints]
  | cfg :: rest, created, st => by
    cases hA : created[cfg.objectAIndex]? with
    | none =>
      simp only [loadConstraints, hA, List.filterMap_cons, Option.map_none']
      exact loadConstraints_worldConstraints rest created st
    | some bodyA =>
      simp only [loadConstraints, hA, List.filterMap_cons, Option.map_some']
      rw [loadConstraints_worldConstraints rest created _]
      simp [List.append_assoc]

/-! ### C7 — clear and atomic reload -/

/--
C7: `clear` removes every non-boundary body and every constraint while
keeping every boundary body, and leaves the registry, and all motion-trail
buffers, empty; `loadExperiment` performs this same full clearing before
creating anything, so after loading preset B every registry object stems
from a placement of B — in particular, zero objects remain whose
`definitionId` came only from the previously loaded preset A.
-/
theorem clear_and_reload_spec
    (catalogObj : String → Option PhysicsObjectDefinition)
    (catalogExp : String → Option Experiment)
    (st : CanvasState) (eid : String) (exp : Experiment)
    (hexp : catalogExp eid = some exp) :
    ((clearScene st).worldBodies =
        st.worldBodies.filter (fun b => b.label == "Boundary") ∧
     (clearScene st).worldConstraints = [] ∧
     (clearScene st).sceneObjects = [] ∧
     (clearScene st).motionTrails = [] ∧
     (∀ b ∈ st.worldBodies, b.label = "Boundary" → b ∈ (clearScene st).worldBodies) ∧
     (∀ b ∈ (clearScene st).worldBodies, b.label = "Boundary" ∧ b ∈ st.worldBodies)) ∧
    ((∀ b ∈ st.worldBodies, b.label = "Boundary" →
        b ∈ (loadExperiment catalogObj catalogExp st eid).worldBodies) ∧
     (loadExperiment catalogObj catalogExp st eid).motionTrails = [] ∧
     (∀ o ∈ (loadExperiment catalogObj catalogExp st eid).sceneObjects,
       ∃ cfg ∈ exp.objects, ∃ defn, catalogObj cfg.definitionId = some defn ∧
         o.definitionId = defn.id) ∧
     (∀ d : String,
       (∀ cfg ∈ exp.objects, ∀ defn, catalogObj cfg.definitionId = some defn →
         defn.id ≠ d) →
       ∀ o ∈ (loadExperiment catalogObj catalogExp st eid).sceneObjects,
         o.definitionId ≠ d)) := by
  have hload : loadExperiment catalogObj catalogExp st eid =
      loadConstraints exp.constraints
        (loadObjects catalogObj exp.objects (clearScene st) []).2
        (loadObjects catalogObj exp.objects (clearScene st) []).1 := by
    unfold loadExperiment
    rw [hexp]
  have hreg : ∀ o ∈ (loadExperiment catalogObj catalogExp st eid).sceneObjects,
      ∃ cfg ∈ exp.objects, ∃ defn, catalogObj cfg.definitionId = some defn ∧
        o.definitionId = defn.id := by
    intro o ho
    rw [hload, (loadConstraints_fields _ _ _).2.1] at ho
    rcases loadObjects_sceneObjects_from catalogObj exp.objects (clearScene st) [] o ho
      with h | h
    · exact absurd h (List.not_mem_nil o)
    · exact h
  refine ⟨⟨rfl, rfl, rfl, rfl, ?_, ?_⟩, ?_, ?_, hreg, ?_⟩
  · intro b hb hlab
    exact List.mem_filter.mpr ⟨hb, by simp [hlab]⟩
  · intro b hb
    have h1 := List.of_mem_filter hb
    have h2 := List.mem_of_mem_filter hb
    simp only [beq_iff_eq] at h1
    exact ⟨h1, h2⟩
  · intro b hb hlab
    rw [hload, (loadConstraints_fields _ _ _).1]
    apply loadObjects_worldBodies_mono
    exact List.mem_filter.mpr ⟨hb, by simp [hlab]⟩
  · rw [hload, (loadConstraints_fields _ _ _).2.2.1,
      (loadObjects_const_fields _ _ _ _).2.1]
    rfl
  · intro d hd o ho hod
    rcases hreg o ho with ⟨cfg, hcfg, defn, hdefn, hoid⟩
    exact hd cfg hcfg defn hdefn (by rw [← hoid, hod])

/-! Concrete catalog/preset/scene material used by the loading witnesses. -/

/-- A rectangle catalog definition named `metal_box`. -/
def metalBoxDef : PhysicsObjectDefinition :=
  ⟨"metal_box", "rectangle", some 50, some 50, none, none,
    ⟨some 0.4, some 0.005, some 0.1, none, some "Metal Box"⟩, ⟨none, none, none⟩⟩

/-- Preset B: a single `metal_box` placement, no constraints. -/
def presetB : Experiment := ⟨"preset_b", [⟨"metal_box", 30, 40, none, none, none⟩], []⟩

/-- An object catalog that only knows `metal_box`. -/
def catalogObjB : String → Option PhysicsObjectDefinition :=
  fun s => if s = "metal_box" then some metalBoxDef else none

/-- An experiment catalog that only knows `preset_b`. -/
def catalogExpB : String → Option Experiment :=
  fun s => if s = "preset_b" then some presetB else none

/-- A boundary floor body. -/
def boundaryFloor : Body :=
  { sampleBody 0 ⟨400, 585⟩ 100 with label := "Boundary", isStatic := true }

/-- A scene as left by some previous preset A: the boundary floor plus one
`wooden_box` object with a motion trail and a selection. -/
def stateAfterA : CanvasState :=
  { worldBodies := [boundaryFloor, sampleBody 2 ⟨100, 100⟩ 1],
    worldConstraints := [],
    sceneObjects := [⟨2, "wooden_box", ⟨100, 100⟩, 0, ⟨none, none, none⟩⟩],
    motionTrails := [(2, [⟨100, 100⟩])],
    selected := some 2,
    nextId := 7 }

/--
C7 witness: loading `preset_b` over the scene left by preset A keeps the
boundary floor, empties the motion trails, and leaves no registry object
with the A-only `definitionId` `wooden_box`.
-/
theorem clear_and_reload_spec_witness :
    (loadExperiment catalogObjB catalogExpB stateAfterA "preset_b").motionTrails = [] ∧
    boundaryFloor ∈ (loadExperiment catalogObjB catalogExpB stateAfterA "preset_b").worldBodies ∧
    ((loadExperiment catalogObjB catalogExpB stateAfterA "preset_b").sceneObjects.all
      (fun o => o.definitionId != "wooden_box")) = true := by
  have h := clear_and_reload_spec catalogObjB catalogExpB stateAfterA "preset_b" presetB rfl
  refine ⟨h.2.2.1, h.2.1 boundaryFloor (by simp [stateAfterA]) rfl, ?_⟩
  rw [List.all_eq_true]
  intro o ho
  have hne := h.2.2.2.2 "wooden_box" ?_ o ho
  · simpa using hne
  · intro cfg hcfg defn hdefn
    have hc := List.mem_singleton.mp hcfg
    subst hc
    rw [show catalogObjB "metal_box" = some metalBoxDef from rfl] at hdefn
    injection hdefn with hmb
    subst hmb
    simp [metalBoxDef]

/-! ### C3 — preset constraint resolution -/

/--
C3 (amended): `loadExperiment` resolves preset constraint indices against
the COMPACTED list of successfully created bodies (a skipped placement
leaves no hole: it shifts every later index).  A constraint is dropped
exactly when its `objectAIndex` is out of range of that compacted list; an
out-of-range (or skipped) `objectBIndex` does NOT drop the constraint — it
is created with `bodyA` only.  All other constraints are created, in preset
order, giving the closed `filterMap` characterisation below.
-/
theorem load_constraints_compacted_spec
    (catalogObj : String → Option PhysicsObjectDefinition)
    (catalogExp : String → Option Experiment)
    (st : CanvasState) (eid : String) (exp : Experiment)
    (hexp : catalogExp eid = some exp) :
    (loadExperiment catalogObj catalogExp st eid).worldConstraints =
      exp.constraints.filterMap (fun cfg =>
        (((loadObjects catalogObj exp.objects (clearScene st) []).2)[cfg.objectAIndex]?).map
          (fun bodyA =>
            ({ bodyAId := bodyA.id,
               bodyBId := (cfg.objectBIndex.bind
                 (fun i => ((loadObjects catalogObj exp.objects (clearScene st) []).2)[i]?)).map
                 (fun b => b.id),
               stiffness := cfg.stiffness.getD 0.4,
               damping := 0.1,
               length := cfg.length } : Constr))) ∧
    (∀ cfg : ConstraintConfig,
      ((((loadObjects catalogObj exp.objects (clearScene st) []).2)[cfg.objectAIndex]?).isSome
        = true ↔
        cfg.objectAIndex < (loadObjects catalogObj exp.objects (clearScene st) []).2.length)) := by
  have hload : loadExperiment catalogObj catalogExp st eid =
      loadConstraints exp.constraints
        (loadObjects catalogObj exp.objects (clearScene st) []).2
        (loadObjects catalogObj exp.objects (clearScene st) []).1 := by
    unfold loadExperiment
    rw [hexp]
  constructor
  · rw [hload, loadConstraints_worldConstraints,
      (loadObjects_const_fields _ _ _ _).1]
    simp [clearScene]
  · intro cfg
    exact getElem?_isSome_iff_lt _ _

/-! Concrete data for the C3 witness and counterexample: a preset whose
first placement (`ghost`) is unknown to the catalog and whose single
constraint references original placement index 0. -/

/-- A rectangle catalog definition named `box`. -/
def boxDef : PhysicsObjectDefinition :=
  ⟨"box", "rectangle", some 50, some 50, none, none,
    ⟨none, none, none, none, none⟩, ⟨none, none, none⟩⟩

/-- Preset with a skipped first placement and a constraint on index 0. -/
def shiftExp : Experiment :=
  ⟨"shift", [⟨"ghost", 10, 10, none, none, none⟩, ⟨"box", 20, 20, none, none, none⟩],
    [⟨"spring", 0, none, none, none⟩]⟩

/-- Object catalog that only knows `box` (so `ghost` is skipped). -/
def catalogObjShift : String → Option PhysicsObjectDefinition :=
  fun s => if s = "box" then some boxDef else none

/-- Experiment catalog that only knows `shift`. -/
def catalogExpShift : String → Option Experiment :=
  fun s => if s = "shift" then some shiftExp else none

/-- An empty scene whose engine id counter stands at 100. -/
def emptyState : CanvasState :=
  { worldBodies := [], worldConstraints := [], sceneObjects := [],
    motionTrails := [], selected := none, nextId := 100 }

/--
C3 witness: the compacted characterisation evaluated on the `shift` preset,
plus the in-range criterion at index 0 of the compacted created list.
-/
theorem load_constraints_compacted_spec_witness :
    (loadExperiment catalogObjShift catalogExpShift emptyState "shift").worldConstraints =
      shiftExp.constraints.filterMap (fun cfg =>
        (((loadObjects catalogObjShift shiftExp.objects (clearScene emptyState)
            []).2)[cfg.objectAIndex]?).map
          (fun bodyA =>
            ({ bodyAId := bodyA.id,
               bodyBId := (cfg.objectBIndex.bind
                 (fun i => ((loadObjects catalogObjShift shiftExp.objects
                   (clearScene emptyState) []).2)[i]?)).map (fun b => b.id),
               stiffness := cfg.stiffness.getD 0.4,
               damping := 0.1,
               length := cfg.length } : Constr))) ∧
    ((((loadObjects catalogObjShift shiftExp.objects (clearScene emptyState)
        []).2)[(0 : ℕ)]?).isSome = true ↔
      (0 : ℕ) < (loadObjects catalogObjShift shiftExp.objects (clearScene emptyState)
        []).2.length) := by
  have h := load_constraints_compacted_spec catalogObjShift catalogExpShift
    emptyState "shift" shiftExp rfl
  exact ⟨h.1, h.2 ⟨"spring", 0, none, none, none⟩⟩

/--
C3 counterexample: the claim as stated is false.  In the `shift` preset the
placement at original index 0 (`ghost`) is skipped, so by the claim the
constraint referencing `objectAIndex = 0` has no corresponding object and
must be absent after the load.  In the code `createdBodies` is compacted:
index 0 now denotes the body created from original placement index 1
(`box`, engine id 100), so the load ends with ONE constraint, wired to that
shifted body — not zero constraints.
-/
theorem load_constraints_index_shift_counterexample :
    catalogObjShift "ghost" = none ∧
    (loadExperiment catalogObjShift catalogExpShift emptyState "shift").worldConstraints =
      [{ bodyAId := 100, bodyBId := none, stiffness := 0.4, damping := 0.1,
         length := none }] ∧
    (loadExperiment catalogObjShift catalogExpShift emptyState "shift").sceneObjects =
      [⟨100, "box", ⟨20, 20⟩, 0, ⟨none, none, none⟩⟩] ∧
    ([{ bodyAId := 100, bodyBId := none, stiffness := 0.4, damping := 0.1,
        length := none }] : List Constr) ≠ [] := by
  refine ⟨rfl, rfl, rfl, by simp⟩

/-! ### C8 — derived physics state -/

/--
C8 (amended): for every body, the 2D physics state satisfies: the reported
`speed` is the Euclidean magnitude of the reported `velocity` (both are the
engine values scaled by the fixed 60 ticks-per-second conversion);
`kineticEnergy` is the ×100 display constant applied to the engine-unit
`½·mass·|v|²` (not to the ×60 reported speed); `potentialEnergy` is
`mass·gravityScale·9.81·(height/10)` clamped to `≥ 0` where `height` is the
distance to the canvas bottom; `totalEnergy = kineticEnergy +
potentialEnergy`; `momentum = mass · velocity` for the reported fields.
The 3D canvas's state calculation does NOT apply the ×100 constant: its
kinetic energy is the bare `½·mass·speed²`.
-/
theorem physics_state_spec (mag : Vec → ℚ) (mag3 : Vec3 → ℚ) (H g : ℚ) (b : Body)
    (hm : MagSpec mag b.velocity) :
    (0 ≤ (calculatePhysicsState mag H g b).speed ∧
     (calculatePhysicsState mag H g b).speed ^ 2 =
       (calculatePhysicsState mag H g b).velocity.x ^ 2 +
       (calculatePhysicsState mag H g b).velocity.y ^ 2) ∧
    ((calculatePhysicsState mag H g b).kineticEnergy =
       100 * (0.5 * b.mass * (mag b.velocity) ^ 2)) ∧
    ((calculatePhysicsState mag H g b).potentialEnergy =
       max 0 (b.mass * g * 9.81 * ((H - b.position.y) / 10)) ∧
     0 ≤ (calculatePhysicsState mag H g b).potentialEnergy) ∧
    ((calculatePhysicsState mag H g b).totalEnergy =
       (calculatePhysicsState mag H g b).kineticEnergy +
       (calculatePhysicsState mag H g b).potentialEnergy) ∧
    ((calculatePhysicsState mag H g b).momentum.x =
       (calculatePhysicsState mag H g b).mass *
         (calculatePhysicsState mag H g b).velocity.x ∧
     (calculatePhysicsState mag H g b).momentum.y =
       (calculatePhysicsState mag H g b).mass *
         (calculatePhysicsState mag H g b).velocity.y) ∧
    (∀ (pos vel : Vec3) (mass : ℚ),
      (physicsState3D mag3 g pos vel mass).kineticEnergy =
        0.5 * mass * (mag3 vel) ^ 2) := by
  have hnorm : (mag b.velocity) ^ 2 = b.velocity.x ^ 2 + b.velocity.y ^ 2 := by
    have h := hm.2
    unfold Vec.normSq at h
    exact h
  simp only [calculatePhysicsState]
  refine ⟨⟨?_, ?_⟩, by ring, ⟨?_, le_max_left 0 _⟩, trivial, ⟨by ring, by ring⟩, ?_⟩
  · exact mul_nonneg hm.1 (by norm_num)
  · linear_combination (3600 : ℚ) * hnorm
  · have h10 : b.mass * g * 9.81 * ((H - b.position.y) / 100) * 10 =
        b.mass * g * 9.81 * ((H - b.position.y) / 10) := by ring
    rw [h10]
  · intro pos vel mass
    simp only [physicsState3D]
    ring

/--
C8 witness: a body with engine velocity `(3, 4)` (so magnitude 5), mass 2,
at height 500 above the canvas bottom (canvas height 600, `y = 100`),
gravity scale 1: the reported speed is 300 = |(180, 240)|, the kinetic
energy is `100·(½·2·25) = 2500`, the potential energy is
`2·1·9.81·50 = 981`, total `3481`, and a 3D body's kinetic energy carries no
×100 factor.
-/
theorem physics_state_spec_witness :
    MagSpec (fun _ => (5 : ℚ)) ({ sampleBody 1 ⟨0, 100⟩ 2 with
      velocity := ⟨3, 4⟩ } : Body).velocity ∧
    (calculatePhysicsState (fun _ => 5) 600 1
      { sampleBody 1 ⟨0, 100⟩ 2 with velocity := ⟨3, 4⟩ }).speed = 300 ∧
    (calculatePhysicsState (fun _ => 5) 600 1
      { sampleBody 1 ⟨0, 100⟩ 2 with velocity := ⟨3, 4⟩ }).kineticEnergy = 2500 ∧
    (calculatePhysicsState (fun _ => 5) 600 1
      { sampleBody 1 ⟨0, 100⟩ 2 with velocity := ⟨3, 4⟩ }).potentialEnergy = 981 ∧
    (calculatePhysicsState (fun _ => 5) 600 1
      { sampleBody 1 ⟨0, 100⟩ 2 with velocity := ⟨3, 4⟩ }).totalEnergy = 3481 ∧
    (physicsState3D (fun _ => 5) 1 ⟨0, 0, 0⟩ ⟨3, 4, 0⟩ 2).kineticEnergy = 25 := by
  have h := physics_state_spec (fun _ => 5) (fun _ => 5) 600 1
    { sampleBody 1 ⟨0, 100⟩ 2 with velocity := ⟨3, 4⟩ }
    ⟨by norm_num, by norm_num [Vec.normSq, sampleBody]⟩
  refine ⟨⟨by norm_num, by norm_num [Vec.normSq, sampleBody]⟩, ?_, ?_, ?_, ?_, ?_⟩
  · norm_num [calculatePhysicsState, sampleBody]
  · rw [h.2.1]
    norm_num [sampleBody]
  · rw [h.2.2.1.1]
    norm_num [sampleBody]
  · rw [h.2.2.2.1, h.2.1, h.2.2.1.1]
    norm_num [sampleBody]
  · rw [h.2.2.2.2.2 ⟨0, 0, 0⟩ ⟨3, 4, 0⟩ 2]
    norm_num

/--
C8 counterexample: the claim as stated is false on two counts.
(1) Reading "speed" as the reported `PhysicsState.speed` field (which the
claim's own clause `speed = |velocity|` forces), the kinetic-energy formula
fails: at engine velocity `(1, 0)` and mass 1 the code yields KE = 50,
while `½·mass·speed²·100` with the reported speed 60 would be 180000.
(2) The ×100 display constant is NOT applied "everywhere energy is shown or
graphed": the 3D canvas's state calculation produces `½·2·1² = 1` for a
mass-2 body at speed 1, where the consistently-scaled value would be 100.
-/
theorem physics_state_scaling_counterexample :
    MagSpec (fun _ => (1 : ℚ)) ({ sampleBody 1 ⟨0, 0⟩ 1 with
      velocity := ⟨1, 0⟩ } : Body).velocity ∧
    (calculatePhysicsState (fun _ => 1) 600 1
      { sampleBody 1 ⟨0, 0⟩ 1 with velocity := ⟨1, 0⟩ }).kineticEnergy = 50 ∧
    (calculatePhysicsState (fun _ => 1) 600 1
      { sampleBody 1 ⟨0, 0⟩ 1 with velocity := ⟨1, 0⟩ }).speed = 60 ∧
    (0.5 : ℚ) * 1 * 60 ^ 2 * 100 = 180000 ∧ (50 : ℚ) ≠ 180000 ∧
    (physicsState3D (fun _ => 1) 1 ⟨0, 0, 0⟩ ⟨1, 0, 0⟩ 2).kineticEnergy = 1 ∧
    (0.5 : ℚ) * 2 * 1 ^ 2 * 100 = 100 ∧ (1 : ℚ) ≠ 100 := by
  refine ⟨⟨by norm_num, by norm_num [Vec.normSq, sampleBody]⟩, ?_, ?_, by norm_num,
    by norm_num, ?_, by norm_num, by norm_num⟩
  · norm_num [calculatePhysicsState, sampleBody]
  · norm_num [calculatePhysicsState, sampleBody]
  · norm_num [physicsState3D]

/-! ### C6 — cascade deletion and the referential invariant -/

/-- The Boolean survival predicate of the cascade filters, spelled out. -/
theorem keep_pred_iff (c : Constr) (k : ℕ) :
    (!(c.bodyAId == k || c.bodyBId == some k)) = true ↔
      c.bodyAId ≠ k ∧ c.bodyBId ≠ some k := by
  simp [not_or]

/-- Well-formedness only looks at the constraint list and the registry. -/
theorem WF_of_eq_parts (st st' : CanvasState)
    (hc : st'.worldConstraints = st.worldConstraints)
    (ho : st'.sceneObjects = st.sceneObjects)
    (h : WF st) : WF st' := by
  unfold WF at h ⊢
  rw [hc, ho]
  exact h

/-- `clear` trivially restores the invariant: no constraints remain. -/
theorem WF_clearScene (st : CanvasState) : WF (clearScene st) := by
  unfold WF clearScene
  intro c hc
  exact absurd hc (List.not_mem_nil c)

/-- Dropping a new object adds a registry entry and no constraint. -/
theorem WF_handleDrop (st : CanvasState) (defn : PhysicsObjectDefinition)
    (x y : ℚ) (h : WF st) : WF (handleDrop st defn x y) := by
  unfold handleDrop
  cases hcb : createBody defn x y st.nextId with
  | none => exact h
  | some body =>
    unfold WF at h ⊢
    intro c hc
    rcases h c hc with ⟨⟨o, hom, hoid⟩, hB⟩
    refine ⟨⟨o, List.mem_append_left _ hom, hoid⟩, ?_⟩
    rcases hB with hnone | ⟨o', ho'm, ho'id⟩
    · exact Or.inl hnone
    · exact Or.inr ⟨o', List.mem_append_left _ ho'm, ho'id⟩

/-- Removing every constraint referencing a body id `k` and `k`'s registry
entry preserves the referential property of the two lists. -/
theorem WF_remove_cascade (cs : List Constr) (objs : List SceneObject) (k : ℕ)
    (h : ∀ c ∈ cs, (∃ o ∈ objs, o.bodyId = c.bodyAId) ∧
      (c.bodyBId = none ∨ ∃ o ∈ objs, some o.bodyId = c.bodyBId)) :
    ∀ c ∈ cs.filter (fun c => !(c.bodyAId == k || c.bodyBId == some k)),
      (∃ o ∈ objs.filter (fun o => o.bodyId != k), o.bodyId = c.bodyAId) ∧
      (c.bodyBId = none ∨
        ∃ o ∈ objs.filter (fun o => o.bodyId != k), some o.bodyId = c.bodyBId) := by
  intro c hc
  have hmem := List.mem_of_mem_filter hc
  have hkeep := (keep_pred_iff c k).mp
    (@List.of_mem_filter Constr (fun c => !(c.bodyAId == k || c.bodyBId == some k)) c cs hc)
  rcases h c hmem with ⟨⟨o, hom, hoid⟩, hB⟩
  refine ⟨⟨o, List.mem_filter.mpr ⟨hom, ?_⟩, hoid⟩, ?_⟩
  · rw [bne_iff_ne, ne_eq, hoid]
    exact hkeep.1
  · rcases hB with hnone | ⟨o', ho'm, ho'id⟩
    · exact Or.inl hnone
    · refine Or.inr ⟨o', List.mem_filter.mpr ⟨ho'm, ?_⟩, ho'id⟩
      rw [bne_iff_ne, ne_eq]
      intro hcontra
      apply hkeep.2
      rw [← ho'id, hcontra]

/-- `deleteSelected` preserves the invariant. -/
theorem WF_deleteSelected (st : CanvasState) (h : WF st) : WF (deleteSelected st) := by
  cases hsel : st.selected with
  | none =>
    simp only [deleteSelected, hsel]
    exact h
  | some selId =>
    cases hfind : st.worldBodies.find? (fun b => b.id == selId) with
    | none =>
      simp only [deleteSelected, hsel, hfind]
      exact h
    | some body =>
      simp only [deleteSelected, hsel, hfind]
      unfold WF at h ⊢
      intro c hc
      exact WF_remove_cascade st.worldConstraints st.sceneObjects body.id h c hc

/-- The eraser tool preserves the invariant. -/
theorem WF_eraserAction (st : CanvasState) (q : List Body) (h : WF st) :
    WF (eraserAction st q) := by
  cases hfind : q.find? (fun b => b.label != "Boundary") with
  | none =>
    simp only [eraserAction, hfind]
    exact h
  | some cb =>
    simp only [eraserAction, hfind]
    unfold WF at h ⊢
    intro c hc
    exact WF_remove_cascade st.worldConstraints st.sceneObjects cb.id h c hc

/-- The pin tool only toggles a body flag: the invariant is untouched. -/
theorem WF_pinAction (st : CanvasState) (q : List Body) (h : WF st) :
    WF (pinAction st q) := by
  cases hfind : q.find? (fun b => b.label != "Boundary") with
  | none =>
    simp only [pinAction, hfind]
    exact h
  | some cb =>
    simp only [pinAction, hfind]
    exact WF_of_eq_parts st _ rfl rfl h

/-- `reset` only rewrites body kinematics: the invariant is untouched. -/
theorem WF_resetScene (st : CanvasState) (h : WF st) : WF (resetScene st) :=
  WF_of_eq_parts st _ rfl rfl h

/-- `resetSelectedPosition` only rewrites one body: invariant untouched. -/
theorem WF_resetSelectedPosition (st : CanvasState) (h : WF st) :
    WF (resetSelectedPosition st) := by
  cases hsel : st.selected with
  | none =>
    simp only [resetSelectedPosition, hsel]
    exact h
  | some selId =>
    cases hfind : st.sceneObjects.find? (fun o => o.bodyId == selId) with
    | none =>
      simp only [resetSelectedPosition, hsel, hfind]
      exact h
    | some o =>
      simp only [resetSelectedPosition, hsel, hfind]
      exact WF_of_eq_parts st _ rfl rfl h

/-- `toggleSelectedStatic` only toggles a body flag: invariant untouched. -/
theorem WF_toggleSelectedStatic (st : CanvasState) (h : WF st) :
    WF (toggleSelectedStatic st) := by
  cases hsel : st.selected with
  | none =>
    simp only [toggleSelectedStatic, hsel]
    exact h
  | some selId =>
    cases hfind : st.worldBodies.find? (fun b => b.id == selId) with
    | none =>
      simp only [toggleSelectedStatic, hsel, hfind]
      exact h
    | some b =>
      simp only [toggleSelectedStatic, hsel, hfind]
      exact WF_of_eq_parts st _ rfl rfl h

/-- `modifySelectedProperty` only edits a body field: invariant untouched. -/
theorem WF_modifySelectedProperty (st : CanvasState) (p : String) (v : ℚ)
    (h : WF st) : WF (modifySelectedProperty st p v) := by
  cases hsel : st.selected with
  | none =>
    simp only [modifySelectedProperty, hsel]
    exact h
  | some selId =>
    cases hfind : st.worldBodies.find? (fun b => b.id == selId) with
    | none =>
      simp only [modifySelectedProperty, hsel, hfind]
      exact h
    | some b =>
      simp only [modifySelectedProperty, hsel, hfind]
      exact WF_of_eq_parts st _ rfl rfl h

/-- Every body on the compacted created list of the placement loop has a
registry record with its id, provided that is already true on entry. -/
theorem loadObjects_created_registered (catalog : String → Option PhysicsObjectDefinition) :
    ∀ (cfgs : List ObjConfig) (st : CanvasState) (created : List Body),
      (∀ b ∈ created, ∃ o ∈ st.sceneObjects, o.bodyId = b.id) →
      ∀ b ∈ (loadObjects catalog cfgs st created).2,
        ∃ o ∈ (loadObjects catalog cfgs st created).1.sceneObjects, o.bodyId = b.id
  | [], _, _, h, b, hb => h b hb
  | cfg :: rest, st, created, h, b, hb => by
    cases hcat : catalog cfg.definitionId with
    | none =>
      simp only [loadObjects, hcat] at hb ⊢
      exact loadObjects_created_registered catalog rest st created h b hb
    | some defn =>
      cases hcb : createBody defn cfg.x cfg.y st.nextId with
      | none =>
        simp only [loadObjects, hcat, hcb] at hb ⊢
        exact loadObjects_created_registered catalog rest st created h b hb
      | some body0 =>
        simp only [loadObjects, hcat, hcb] at hb ⊢
        apply loadObjects_created_registered catalog rest _ _ ?_ b hb
        intro b' hb'
        rcases List.mem_append.mp hb' with h' | h'
        · rcases h b' h' with ⟨o, ho, hid⟩
          exact ⟨o, List.mem_append_left _ ho, hid⟩
        · have hb3 := List.mem_singleton.mp h'
          subst hb3
          exact ⟨_, List.mem_append_right _ (List.mem_singleton.mpr rfl), rfl⟩

/-- Loading a preset restores the invariant from scratch: every created
constraint references bodies of the compacted created list, each of which
got a registry record. -/
theorem WF_loadExperiment (catalogObj : String → Option PhysicsObjectDefinition)
    (catalogExp : String → Option Experiment) (st : CanvasState) (eid : String)
    (h : WF st) : WF (loadExperiment catalogObj catalogExp st eid) := by
  cases hexp : catalogExp eid with
  | none =>
    simp only [loadExperiment, hexp]
    exact h
  | some exp =>
    simp only [loadExperiment, hexp]
    unfold WF
    intro c hc
    rw [loadConstraints_worldConstraints, (loadObjects_const_fields _ _ _ _).1] at hc
    rcases List.mem_append.mp hc with hc' | hc'
    · exact absurd hc' (List.not_mem_nil c)
    · rcases List.mem_filterMap.mp hc' with ⟨cfg, hcfg, heq⟩
      have hreg := loadObjects_created_registered catalogObj exp.objects (clearScene st) []
        (fun b hb => absurd hb (List.not_mem_nil b))
      cases hA : (loadObjects catalogObj exp.objects (clearScene st) []).2[cfg.objectAIndex]? with
      | none =>
        rw [hA] at heq
        simp at heq
      | some bodyA =>
        rw [hA] at heq
        simp only [Option.map_some', Option.some.injEq] at heq
        subst heq
        rw [(loadConstraints_fields _ _ _).2.1]
        constructor
        · rcases hreg bodyA (List.getElem?_mem hA) with ⟨o, ho, hid⟩
          exact ⟨o, ho, hid⟩
        · cases hOB : cfg.objectBIndex.bind
            (fun i => (loadObjects catalogObj exp.objects (clearScene st) []).2[i]?) with
          | none =>
            left
            simp [hOB]
          | some bodyB =>
            right
            have hbB : bodyB ∈ (loadObjects catalogObj exp.objects (clearScene st) []).2 := by
              rcases Option.bind_eq_some.mp hOB with ⟨i, hi, hgi⟩
              exact List.getElem?_mem hgi
            rcases hreg bodyB hbB with ⟨o, ho, hid⟩
            exact ⟨o, ho, by simp [hOB, hid]⟩

/-- One canvas operation preserves the referential invariant. -/
theorem WF_stepOp (catalogObj : String → Option PhysicsObjectDefinition)
    (catalogExp : String → Option Experiment) (op : Op) (st : CanvasState)
    (h : WF st) : WF (stepOp catalogObj catalogExp op st) := by
  cases op with
  | drop defn x y => exact WF_handleDrop st defn x y h
  | deleteSel => exact WF_deleteSelected st h
  | eraser q => exact WF_eraserAction st q h
  | pin q => exact WF_pinAction st q h
  | clear => exact WF_clearScene st
  | load eid => exact WF_loadExperiment catalogObj catalogExp st eid h
  | reset => exact WF_resetScene st h
  | resetSelPos => exact WF_resetSelectedPosition st h
  | toggleStatic => exact WF_toggleSelectedStatic st h
  | modify p v => exact WF_modifySelectedProperty st p v h
  | select s => exact WF_of_eq_parts st _ rfl rfl h

/-- Any sequence of canvas operations preserves the invariant. -/
theorem WF_runOps (catalogObj : String → Option PhysicsObjectDefinition)
    (catalogExp : String → Option Experiment) :
    ∀ (ops : List Op) (st : CanvasState), WF st →
      WF (runOps catalogObj catalogExp ops st)
  | [], _, h => h
  | op :: rest, st, h =>
    WF_runOps catalogObj catalogExp rest _ (WF_stepOp catalogObj catalogExp op st h)

/--
C6 (amended): deleting the selected object removes every constraint
referencing it (and no other), the body, its registry entry AND its
motion-trail buffer; deleting via the eraser tool removes the constraints,
body and registry entry but — unlike `deleteSelected` — leaves the
motion-trail buffer in place; deleting an unknown selected id is a no-op,
not an error; and after any sequence of canvas operations, starting from a
well-formed scene, the world never contains a constraint whose endpoint
body id is absent from the tracked object set.
-/
theorem delete_cascade_and_registry_invariant
    (catalogObj : String → Option PhysicsObjectDefinition)
    (catalogExp : String → Option Experiment) :
    (∀ (st : CanvasState) (selId : ℕ) (body : Body),
      st.selected = some selId →
      st.worldBodies.find? (fun b => b.id == selId) = some body →
      (∀ c ∈ (deleteSelected st).worldConstraints,
        c.bodyAId ≠ body.id ∧ c.bodyBId ≠ some body.id) ∧
      (∀ c ∈ st.worldConstraints,
        c.bodyAId ≠ body.id → c.bodyBId ≠ some body.id →
        c ∈ (deleteSelected st).worldConstraints) ∧
      (∀ b ∈ (deleteSelected st).worldBodies, b.id ≠ body.id) ∧
      (∀ o ∈ (deleteSelected st).sceneObjects, o.bodyId ≠ body.id) ∧
      (∀ t ∈ (deleteSelected st).motionTrails, t.1 ≠ body.id)) ∧
    (∀ (st : CanvasState) (selId : ℕ),
      st.selected = some selId →
      st.worldBodies.find? (fun b => b.id == selId) = none →
      deleteSelected st = st) ∧
    (∀ (st : CanvasState) (q : List Body) (cb : Body),
      q.find? (fun b => b.label != "Boundary") = some cb →
      (∀ c ∈ (eraserAction st q).worldConstraints,
        c.bodyAId ≠ cb.id ∧ c.bodyBId ≠ some cb.id) ∧
      (∀ o ∈ (eraserAction st q).sceneObjects, o.bodyId ≠ cb.id) ∧
      (eraserAction st q).motionTrails = st.motionTrails) ∧
    (∀ (op : Op) (st : CanvasState), WF st → WF (stepOp catalogObj catalogExp op st)) ∧
    (∀ (ops : List Op) (st : CanvasState), WF st →
      WF (runOps catalogObj catalogExp ops st)) := by
  refine ⟨?_, ?_, ?_, WF_stepOp catalogObj catalogExp, WF_runOps catalogObj catalogExp⟩
  · intro st selId body hsel hfind
    have hres : deleteSelected st =
        { st with
          worldConstraints := st.worldConstraints.filter
            (fun c => !(c.bodyAId == body.id || c.bodyBId == some body.id)),
          worldBodies := st.worldBodies.filter (fun b => b.id != body.id),
          sceneObjects := st.sceneObjects.filter (fun o => o.bodyId != body.id),
          motionTrails := st.motionTrails.filter (fun t => t.1 != body.id),
          selected := none } := by
      simp only [deleteSelected, hsel, hfind]
    refine ⟨?_, ?_, ?_, ?_, ?_⟩
    · intro c hc
      rw [hres] at hc
      exact (keep_pred_iff c body.id).mp
        (@List.of_mem_filter Constr
          (fun c => !(c.bodyAId == body.id || c.bodyBId == some body.id))
          c st.worldConstraints hc)
    · intro c hc hA hB
      rw [hres]
      exact List.mem_filter.mpr ⟨hc, (keep_pred_iff c body.id).mpr ⟨hA, hB⟩⟩
    · intro b hb
      rw [hres] at hb
      have := List.of_mem_filter hb
      rwa [bne_iff_ne] at this
    · intro o ho
      rw [hres] at ho
      have := List.of_mem_filter ho
      rwa [bne_iff_ne] at this
    · intro t ht
      rw [hres] at ht
      have := List.of_mem_filter ht
      rwa [bne_iff_ne] at this
  · intro st selId hsel hfind
    simp only [deleteSelected, hsel, hfind]
  · intro st q cb hfind
    have hres : eraserAction st q =
        { st with
          worldConstraints := st.worldConstraints.filter
            (fun c => !(c.bodyAId == cb.id || c.bodyBId == some cb.id)),
          worldBodies := st.worldBodies.filter (fun b => b.id != cb.id),
          sceneObjects := st.sceneObjects.filter (fun o => o.bodyId != cb.id),
          selected := if st.selected == some cb.id then none else st.selected } := by
      simp only [eraserAction, hfind]
    refine ⟨?_, ?_, ?_⟩
    · intro c hc
      rw [hres] at hc
      exact (keep_pred_iff c cb.id).mp
        (@List.of_mem_filter Constr
          (fun c => !(c.bodyAId == cb.id || c.bodyBId == some cb.id))
          c st.worldConstraints hc)
    · intro o ho
      rw [hres] at ho
      have := List.of_mem_filter ho
      rwa [bne_iff_ne] at this
    · rw [hres]

/-- A one-object scene with a motion-trail buffer for that object. -/
def trailState : CanvasState :=
  { worldBodies := [sampleBody 5 ⟨50, 50⟩ 1],
    worldConstraints := [],
    sceneObjects := [⟨5, "wooden_box", ⟨50, 50⟩, 0, ⟨none, none, none⟩⟩],
    motionTrails := [(5, [⟨50, 50⟩])],
    selected := none, nextId := 6 }

/--
C6 witness: (i) deleting with a selected id that matches no body is a
strict no-op; (ii) the referential invariant holds after a concrete
operation sequence (clear, drop, delete) run on `trailState`.
-/
theorem delete_cascade_and_registry_invariant_witness :
    deleteSelected { trailState with selected := some 9 } =
      { trailState with selected := some 9 } ∧
    WF (runOps (fun _ => none) (fun _ => none)
      [Op.clear, Op.drop metalBoxDef 10 10, Op.deleteSel] trailState) := by
  have h := delete_cascade_and_registry_invariant (fun _ => none) (fun _ => none)
  constructor
  · exact h.2.1 { trailState with selected := some 9 } 9 rfl (by decide)
  · exact h.2.2.2.2 [Op.clear, Op.drop metalBoxDef 10 10, Op.deleteSel] trailState
      (by decide)
/--
C6 counterexample: the claim as stated is false for the eraser deletion
path.  Erasing the only object of `trailState` removes the body, its
constraints and its registry entry, but its motion-trail buffer survives —
the claim demands the buffer be removed together with the rest.
-/
theorem eraser_leaves_trail_counterexample :
    (eraserAction trailState [sampleBody 5 ⟨50, 50⟩ 1]).sceneObjects = [] ∧
    (eraserAction trailState [sampleBody 5 ⟨50, 50⟩ 1]).worldBodies = [] ∧
    (eraserAction trailState [sampleBody 5 ⟨50, 50⟩ 1]).motionTrails =
      [(5, [⟨50, 50⟩])] ∧
    ([(5, [(⟨50, 50⟩ : Vec)])] : List (ℕ × List Vec)) ≠ [] := by
  refine ⟨rfl, rfl, rfl, by simp⟩
